import Mathlib

/-!
Verification development for the JPYC gasless-transfer relayer canister
(`src/canisters/relayer/src/lib.rs`).  The Rust source is shallowly embedded:
bytes are `Nat`s below 256, byte strings are `List Nat`, `candid::Nat` is
`Nat`, machine integers carry explicit range guards, fallible code returns
`Except RelayError`, and the canister's external collaborators (the EVM RPC
canister, the threshold-ECDSA signer, the secp256k1 recovery routine of the
`k256` library, and the IC clock) are supplied as explicit inputs.
-/

namespace JpycRelayer

/-! ### Basic numeric and string helpers -/

/-- Decimal digit character, used to model Rust's `Display` for `usize`
(codepoint 48 is `0`). -/
def decimal_digit_char (n : Nat) : Char :=
  Char.ofNat (48 + n % 10)

/-- Fuel-driven digit extraction, least-significant decimal digit first. -/
def decimal_digits_aux : Nat → Nat → List Char
  | 0, _ => []
  | fuel + 1, n => if n = 0 then [] else decimal_digit_char (n % 10) :: decimal_digits_aux fuel (n / 10)

/-- `Display` for an unsigned machine integer (plain decimal digits). -/
def nat_to_string (n : Nat) : String :=
  if n = 0 then "0" else String.mk (decimal_digits_aux n n).reverse

/-- Insert an underscore after every third digit, counting from the right;
the input list is the reversed digit list.  Models `candid::Nat`'s `Display`. -/
def group_digits_aux : Nat → List Char → List Char
  | 0, ds => ds
  | fuel + 1, ds =>
    if ds.length ≤ 3 then ds
    else ds.take 3 ++ '_' :: group_digits_aux fuel (ds.drop 3)

/-- `Display` for `candid::Nat`: decimal digits in groups of three separated
by underscores. -/
def candid_nat_to_string (n : Nat) : String :=
  if n = 0 then "0"
  else String.mk (group_digits_aux n (decimal_digits_aux n n)).reverse

/-- `Display` for `i64` (used for JSON-RPC error codes). -/
def int_to_string (i : Int) : String :=
  if i < 0 then "-" ++ nat_to_string (-i).toNat else nat_to_string i.toNat

/-- Fuel-driven base-256 digit extraction, least-significant byte first. -/
def base256_digits_aux : Nat → Nat → List Nat
  | 0, _ => []
  | fuel + 1, n => if n = 0 then [] else n % 256 :: base256_digits_aux fuel (n / 256)

/-- Big-endian base-256 digits of `n` (empty for `n = 0`). -/
def base256_digits (n : Nat) : List Nat :=
  (base256_digits_aux n n).reverse

/-! ### Error type (`RelayError`) and its `Display` implementation -/

/-- The canister's error enumeration, with the payloads the claims need. -/
inductive RelayError where
  | NotAuthorized
  | NotInitialized
  | Paused
  | ConfigurationMissing (field : String)
  | RelayerAddressMissing
  | AssetNotRegistered
  | AssetNotActive
  | AuthorizationExpired
  | AuthorizationAlreadyUsed
  | InvalidAddressLength (field : String) (expected actual : Nat)
  | InvalidNonceLength (expected actual : Nat)
  | InvalidSignatureLength (field : String) (expected actual : Nat)
  | SignatureRecoveryFailed (message : String)
  | RpcError (code : Int) (message : String)
  | RpcTransportError (code message : String)
  | RpcResultTypeMismatch (expected : String)
  | HexDecodeFailed (value : String)
  | NumberOutOfRange (field : String)
  | SimulationFailed (message : String)
  | GasEstimateFailed (message : String)
  | GasBalanceLow (required actual : Nat)
  | RateLimited
  | JsonError (message : String)
  | NotImplemented (feature : String)
deriving DecidableEq

/-- The canister's `impl Display for RelayError`. -/
def relay_error_to_string : RelayError → String
  | .NotAuthorized => "not authorized"
  | .NotInitialized => "state not initialized"
  | .Paused => "service paused"
  | .ConfigurationMissing field => "configuration missing: " ++ field
  | .RelayerAddressMissing => "relayer address not configured"
  | .AssetNotRegistered => "asset not registered"
  | .AssetNotActive => "asset not active"
  | .AuthorizationExpired => "authorization expired"
  | .AuthorizationAlreadyUsed => "authorization already used"
  | .InvalidAddressLength field expected actual =>
    "invalid " ++ field ++ " length: expected " ++ nat_to_string expected ++ ", got " ++ nat_to_string actual
  | .InvalidNonceLength expected actual =>
    "invalid nonce length: expected " ++ nat_to_string expected ++ ", got " ++ nat_to_string actual
  | .InvalidSignatureLength field expected actual =>
    "invalid " ++ field ++ " length: expected " ++ nat_to_string expected ++ ", got " ++ nat_to_string actual
  | .SignatureRecoveryFailed message => "signature recovery failed: " ++ message
  | .RpcError code message => "rpc error " ++ int_to_string code ++ ": " ++ message
  | .RpcTransportError code message => "rpc transport error " ++ code ++ ": " ++ message
  | .RpcResultTypeMismatch expected => "unexpected rpc result type, expected " ++ expected
  | .HexDecodeFailed value => "failed to decode hex: " ++ value
  | .NumberOutOfRange field => "number out of range: " ++ field
  | .SimulationFailed message => "simulation failed: " ++ message
  | .GasEstimateFailed message => "gas estimation failed: " ++ message
  | .GasBalanceLow required actual =>
    "gas balance low: required " ++ candid_nat_to_string required ++ ", actual " ++ candid_nat_to_string actual
  | .RateLimited => "rate limit exceeded"
  | .JsonError message => "json error: " ++ message
  | .NotImplemented feature => "feature not implemented: " ++ feature

instance exceptDecEq {ε α : Type} [DecidableEq ε] [DecidableEq α] : DecidableEq (Except ε α) := by
  intro a b
  cases a <;> cases b
  case error.error x y =>
    exact if h : x = y then .isTrue (by rw [h]) else .isFalse (fun hh => h (by injection hh))
  case error.ok x y => exact .isFalse (fun hh => Except.noConfusion hh)
  case ok.error x y => exact .isFalse (fun hh => Except.noConfusion hh)
  case ok.ok x y =>
    exact if h : x = y then .isTrue (by rw [h]) else .isFalse (fun hh => h (by injection hh))

/-! ### RLP codec (`trim_leading_zeroes`, `length_to_bytes`,
`rlp_encode_bytes`, `rlp_encode_nat_value`, `rlp_encode_list`) -/

/-- `trim_leading_zeroes`: drop leading `0x00` bytes; an all-zero string
becomes empty. -/
def trim_leading_zeroes : List Nat → List Nat
  | [] => []
  | b :: rest => if b = 0 then trim_leading_zeroes rest else b :: rest

/-- `length_to_bytes`: minimal big-endian bytes of a length, with `0`
encoded as the single byte `0x00`. -/
def length_to_bytes (len : Nat) : List Nat :=
  let bytes := base256_digits len
  if bytes = [] then [0] else bytes

/-- `num_bigint::BigUint::to_bytes_be`: big-endian bytes, `[0]` for zero. -/
def nat_to_bytes_be (value : Nat) : List Nat :=
  if value = 0 then [0] else base256_digits value

/-- `nat_to_be_bytes`: `to_bytes_be` with leading zeroes trimmed (the RLP
canonical integer byte string). -/
def nat_to_be_bytes (value : Nat) : List Nat :=
  trim_leading_zeroes (nat_to_bytes_be value)

/-- `rlp_encode_bytes`: canonical RLP encoding of a byte string. -/
def rlp_encode_bytes (data : List Nat) : List Nat :=
  if data.length = 0 then [0x80]
  else if data.length = 1 ∧ data.headD 0 < 0x80 then data
  else if data.length ≤ 55 then (0x80 + data.length) :: data
  else (0xB7 + (length_to_bytes data.length).length) :: (length_to_bytes data.length ++ data)

/-- `rlp_encode_nat_value`: RLP encoding of an unsigned integer. -/
def rlp_encode_nat_value (value : Nat) : List Nat :=
  rlp_encode_bytes (nat_to_be_bytes value)

/-- `rlp_encode_list`: RLP list framing over already-encoded items. -/
def rlp_encode_list (items : List (List Nat)) : List Nat :=
  let total := (items.map List.length).sum
  if total ≤ 55 then (0xC0 + total) :: items.flatten
  else (0xF7 + (length_to_bytes total).length) :: (length_to_bytes total ++ items.flatten)

/-- Big-endian byte-string value. -/
def be_bytes_to_nat (bytes : List Nat) : Nat :=
  bytes.foldl (fun acc b => acc * 256 + b) 0

/-- Reference RLP byte-string decoder, following the spec's RLP grammar
(§4.2): a single byte below `0x80` stands for itself, `0x80 + n` prefixes a
short string of length `n ≤ 55`, and `0xB7 + k` prefixes the `k`-byte
big-endian length of a long string.  Used only to state the
decode-of-encode law of §8. -/
def rlp_decode_bytes : List Nat → Option (List Nat)
  | [] => none
  | b :: rest =>
    if b < 0x80 then if rest = [] then some [b] else none
    else if b ≤ 0xB7 then
      if rest.length = b - 0x80 then some rest else none
    else if b ≤ 0xBF then
      let ll := b - 0xB7
      let lenBytes := rest.take ll
      let len := be_bytes_to_nat lenBytes
      if lenBytes.length = ll ∧ rest.length = ll + len ∧ 55 < len then some (rest.drop ll) else none
    else none

/-! ### Exact model of IEEE-754 binary64 (`f64`) for the fee-scaling path

`scale_nat` runs `u128 → f64 → (* multiplier) → ceil → u128`.  The embedding
models the double-precision values exactly: a finite value is
`±mantissa · 2^exponent`, kept with `mantissa < 2^53`, and every operation
rounds to nearest-even at 53 significant bits exactly as the hardware does,
overflowing to infinity past `2^1024` and flushing sub-`2^-1074` results
onto the subnormal grid. -/

inductive F64 where
  | finite (sign : Bool) (mantissa : Nat) (exponent : Int)
  | infinite (sign : Bool)
  | nan
deriving DecidableEq

def f64_is_nan : F64 → Bool
  | .nan => true
  | _ => false

def f64_is_infinite : F64 → Bool
  | .infinite _ => true
  | _ => false

/-- The test `x < 0.0` (false for NaN and for `-0.0`). -/
def f64_lt_zero : F64 → Bool
  | .finite s m _ => s && !(m == 0)
  | .infinite s => s
  | .nan => false

/-- Round-to-nearest, ties-to-even, of `m / 2^shift`. -/
def round_half_even (m : Nat) (shift : Nat) : Nat :=
  if shift = 0 then m
  else
    let q := m / 2 ^ shift
    let r := m % 2 ^ shift
    let half := 2 ^ (shift - 1)
    if r < half then q
    else if half < r then q + 1
    else if q % 2 = 0 then q else q + 1

/-- Fuel-driven: number of right shifts needed before `m` fits in 53 bits. -/
def precision_shift_aux : Nat → Nat → Nat → Nat
  | 0, _, s => s
  | fuel + 1, m, s => if m < 2 ^ 53 then s else precision_shift_aux fuel (m / 2) (s + 1)

def precision_shift (m : Nat) : Nat :=
  precision_shift_aux m m 0

/-- The Rust cast `n as f64` for `n : u128` (round to nearest-even). -/
def u128_to_f64 (n : Nat) : F64 :=
  if n = 0 then .finite false 0 0
  else
    let shift := precision_shift n
    let q := round_half_even n shift
    if q = 2 ^ 53 then .finite false (2 ^ 52) ((shift : Int) + 1)
    else .finite false q (shift : Int)

/-- IEEE-754 binary64 multiplication on the exact representation. -/
def f64_mul : F64 → F64 → F64
  | .nan, _ => .nan
  | _, .nan => .nan
  | .infinite s1, .infinite s2 => .infinite (xor s1 s2)
  | .infinite s1, .finite s2 m _ => if m = 0 then .nan else .infinite (xor s1 s2)
  | .finite s1 m _, .infinite s2 => if m = 0 then .nan else .infinite (xor s1 s2)
  | .finite s1 m1 e1, .finite s2 m2 e2 =>
    let sign := xor s1 s2
    let m := m1 * m2
    let e := e1 + e2
    if m = 0 then .finite sign 0 0
    else
      let pshift := precision_shift m
      let shift := if (pshift : Int) < -1074 - e then ((-1074) - e).toNat else pshift
      let q := round_half_even m shift
      let eq2 : Int := e + shift
      if q = 0 then .finite sign 0 0
      else
        let (q, eq2) := if q = 2 ^ 53 then (2 ^ 52, eq2 + 1) else (q, eq2)
        if 0 ≤ eq2 ∧ 2 ^ 1024 ≤ q * 2 ^ eq2.toNat then .infinite sign
        else .finite sign q eq2

/-- `f64::ceil` (exact: the ceiling of a finite double is representable). -/
def f64_ceil : F64 → F64
  | .nan => .nan
  | .infinite s => .infinite s
  | .finite s m e =>
    if 0 ≤ e then .finite s m e
    else
      let shift := (-e).toNat
      let q := m / 2 ^ shift
      let r := m % 2 ^ shift
      if r = 0 then .finite s q 0
      else if s then .finite s q 0
      else .finite s (q + 1) 0

/-- The Rust cast `x as u128`: truncate toward zero and saturate;
NaN becomes 0. -/
def f64_as_u128 : F64 → Nat
  | .nan => 0
  | .infinite s => if s then 0 else 2 ^ 128 - 1
  | .finite s m e =>
    if s ∧ m ≠ 0 then 0
    else
      let t := if 0 ≤ e then m * 2 ^ e.toNat else m / 2 ^ (-e).toNat
      min t (2 ^ 128 - 1)

/-- The `f64` literal `1.2` (binary64: `0x3FF3333333333333`). -/
def f64_lit_1_2 : F64 := .finite false 5404319552844595 (-52)

/-- The `f64` literal `2.0` (default `max_fee_multiplier`). -/
def f64_lit_2_0 : F64 := .finite false (2 ^ 52) (-51)

/-! ### Numeric conversions and `scale_nat` -/

/-- `nat_to_u64`: `Nat::to_u64` with `NumberOutOfRange` on overflow. -/
def nat_to_u64 (value : Nat) : Except RelayError Nat :=
  if value < 2 ^ 64 then .ok value else .error (.NumberOutOfRange "u64")

/-- `nat_to_u128`: `Nat::to_u128` with `NumberOutOfRange` on overflow. -/
def nat_to_u128 (value : Nat) : Except RelayError Nat :=
  if value < 2 ^ 128 then .ok value else .error (.NumberOutOfRange "u128")

/-- `scale_nat`: multiply a `Nat` by an `f64` multiplier through the lossy
`u128 → f64 → ceil → u128` path, rejecting NaN/infinite/negative results. -/
def scale_nat (value : Nat) (multiplier : F64) : Except RelayError Nat :=
  match nat_to_u128 value with
  | .error e => .error e
  | .ok base =>
    let scaled := f64_ceil (f64_mul (u128_to_f64 base) multiplier)
    if f64_is_nan scaled || f64_is_infinite scaled || f64_lt_zero scaled then
      .error (.NumberOutOfRange "scaled nat")
    else
      .ok (f64_as_u128 scaled)

/-! ### Keccak-256 (`keccak_f1600`, `absorb_block`, `keccak256`) -/

def KECCAKF_ROUND_CONSTANTS : List Nat :=
  [0x0000000000000001, 0x0000000000008082, 0x800000000000808a, 0x8000000080008000,
   0x000000000000808b, 0x0000000080000001, 0x8000000080008081, 0x8000000000008009,
   0x000000000000008a, 0x0000000000000088, 0x0000000080008009, 0x000000008000000a,
   0x000000008000808b, 0x800000000000008b, 0x8000000000008089, 0x8000000000008003,
   0x8000000000008002, 0x8000000000000080, 0x000000000000800a, 0x800000008000000a,
   0x8000000080008081, 0x8000000000008080, 0x0000000080000001, 0x8000000080008008]

def KECCAKF_ROTATION : List Nat :=
  [1, 3, 6, 10, 15, 21, 28, 36, 45, 55, 2, 14, 27, 41, 56, 8, 25, 43, 62, 18, 39, 61, 20, 44]

def KECCAKF_PERMUTATION : List Nat :=
  [10, 7, 11, 17, 18, 3, 5, 16, 8, 21, 24, 4, 15, 23, 19, 13, 12, 2, 20, 14, 22, 9, 6, 1]

/-- 64-bit rotate left on `Nat` values below `2^64`. -/
def rotl64 (x : Nat) (r : Nat) : Nat :=
  (x * 2 ^ (r % 64) + x / 2 ^ (64 - r % 64)) % 2 ^ 64

/-- Bitwise complement of a 64-bit lane. -/
def not64 (x : Nat) : Nat :=
  Nat.xor x (2 ^ 64 - 1)

/-- Read lane `i` of a 25-lane state. -/
def lane (s : List Nat) (i : Nat) : Nat :=
  s.getD i 0

/-- The θ step of Keccak-f. -/
def keccak_theta (s : List Nat) : List Nat :=
  let bc := (List.range 5).map fun i =>
    Nat.xor (lane s i) (Nat.xor (lane s (i + 5))
      (Nat.xor (lane s (i + 10)) (Nat.xor (lane s (i + 15)) (lane s (i + 20)))))
  (List.range 25).map fun idx =>
    let i := idx % 5
    Nat.xor (lane s idx) (Nat.xor (bc.getD ((i + 4) % 5) 0) (rotl64 (bc.getD ((i + 1) % 5) 0) 1))

/-- The ρ and π steps, as the source's sequential lane-shuffling loop. -/
def keccak_rho_pi (s : List Nat) : List Nat :=
  ((List.range 24).foldl
    (fun (acc : List Nat × Nat) i =>
      let j := KECCAKF_PERMUTATION.getD i 0
      let tmp := lane acc.1 j
      (acc.1.set j (rotl64 acc.2 (KECCAKF_ROTATION.getD i 0)), tmp))
    (s, lane s 1)).1

/-- The χ step. -/
def keccak_chi (s : List Nat) : List Nat :=
  (List.range 25).map fun idx =>
    let j := (idx / 5) * 5
    let i := idx % 5
    Nat.xor (lane s idx) (Nat.land (not64 (lane s (j + (i + 1) % 5))) (lane s (j + (i + 2) % 5)))

/-- One round of Keccak-f[1600]. -/
def keccak_round (s : List Nat) (rc : Nat) : List Nat :=
  let s := keccak_chi (keccak_rho_pi (keccak_theta s))
  s.set 0 (Nat.xor (lane s 0) rc)

/-- Keccak-f[1600]: 24 rounds. -/
def keccak_f1600 (s : List Nat) : List Nat :=
  KECCAKF_ROUND_CONSTANTS.foldl keccak_round s

/-- Little-endian 8-byte chunk to 64-bit lane (short chunks zero-padded). -/
def bytes_to_lane (bs : List Nat) : Nat :=
  bs.foldr (fun b acc => b + 256 * acc) 0

/-- XOR a rate-sized block into the state, lane by lane. -/
def absorb_block (s : List Nat) (block : List Nat) : List Nat :=
  (List.range 25).map fun i =>
    Nat.xor (lane s i) (bytes_to_lane ((block.drop (8 * i)).take 8))

/-- 64-bit lane to 8 little-endian bytes. -/
def lane_to_bytes (x : Nat) : List Nat :=
  (List.range 8).map fun i => x / 256 ^ i % 256

/-- Keccak padding of the final partial block: `0x01` after the message,
`0x80` or-ed into byte 135. -/
def keccak_pad_block (rem : List Nat) : List Nat :=
  let base := rem ++ 0x01 :: List.replicate (135 - rem.length) 0
  base.take 135 ++ [Nat.lor (base.getD 135 0) 0x80]

/-- Absorb all full 136-byte blocks, then the padded final block. -/
def keccak_absorb_aux : Nat → List Nat → List Nat → List Nat
  | 0, s, _ => s
  | fuel + 1, s, input =>
    if 136 ≤ input.length then
      keccak_absorb_aux fuel (keccak_f1600 (absorb_block s (input.take 136))) (input.drop 136)
    else
      keccak_f1600 (absorb_block s (keccak_pad_block input))

/-- `keccak256`: rate 136, padding byte `0x01`, final bit `0x80`, 32-byte
output (a single squeeze of lanes 0–3). -/
def keccak256 (input : List Nat) : List Nat :=
  let s := keccak_absorb_aux (input.length + 1) (List.replicate 25 0) input
  ((List.range 4).map fun i => lane_to_bytes (lane s i)).flatten

/-! ### Hex strings -/

/-- Lowercase hex digit character (codepoint 48 is `0`, 97 is `a`), as the
`hex` crate emits. -/
def hex_digit_char (n : Nat) : Char :=
  if n % 16 < 10 then Char.ofNat (48 + n % 16) else Char.ofNat (87 + n % 16)

/-- `hex::encode`: lowercase hex, two characters per byte. -/
def hex_encode (bytes : List Nat) : String :=
  String.mk (bytes.foldr (fun b acc => hex_digit_char (b / 16) :: hex_digit_char (b % 16) :: acc) [])

/-- `to_hex_address`: `0x`-prefixed hex of a 20-byte address. -/
def to_hex_address (bytes : List Nat) : Except RelayError String :=
  if bytes.length ≠ 20 then
    .error (.InvalidAddressLength "address" 20 bytes.length)
  else
    .ok ("0x" ++ hex_encode bytes)

/-- `to_hex_prefixed` without a length guard (used for call data and raw
transactions). -/
def to_hex_prefixed (bytes : List Nat) : String :=
  "0x" ++ hex_encode bytes

def hex_char_value (c : Char) : Option Nat :=
  if '0' ≤ c ∧ c ≤ '9' then some (c.toNat - '0'.toNat)
  else if 'a' ≤ c ∧ c ≤ 'f' then some (c.toNat - 'a'.toNat + 10)
  else if 'A' ≤ c ∧ c ≤ 'F' then some (c.toNat - 'A'.toNat + 10)
  else none

/-- `hex::decode` over an even-length character list. -/
def hex_decode_chars : List Char → Option (List Nat)
  | [] => some []
  | c1 :: c2 :: rest => do
    let h ← hex_char_value c1
    let l ← hex_char_value c2
    let tail ← hex_decode_chars rest
    pure ((h * 16 + l) :: tail)
  | [_] => none

/-- `str::trim` on a character list. -/
def trim_chars (cs : List Char) : List Char :=
  ((cs.dropWhile Char.isWhitespace).reverse.dropWhile Char.isWhitespace).reverse

/-- `parse_hex_bytes`: trim, require a `0x` prefix, left-pad an odd-length
body with `0`, and hex-decode. -/
def parse_hex_bytes (value : String) : Except RelayError (List Nat) :=
  let trimmed := trim_chars value.toList
  match trimmed with
  | '0' :: 'x' :: body =>
    if body = [] then .ok []
    else
      let body := if body.length % 2 ≠ 0 then '0' :: body else body
      match hex_decode_chars body with
      | some bytes => .ok bytes
      | none => .error (.HexDecodeFailed (String.mk trimmed))
  | _ => .error (.HexDecodeFailed (String.mk trimmed))

/-- `evm_address_bytes`: hex-decode an `0x…` address into exactly 20 bytes. -/
def evm_address_bytes (address : String) : Except RelayError (List Nat) :=
  match parse_hex_bytes address with
  | .error e => .error e
  | .ok bytes =>
    if bytes.length ≠ 20 then .error (.InvalidAddressLength "evm_address" 20 bytes.length)
    else .ok bytes

/-! ### ABI encoding -/

/-- `pad_left`: left-pad with zero bytes to `len`, truncating from the left
when the value is longer. -/
def pad_left (value : List Nat) (len : Nat) : List Nat :=
  if len ≤ value.length then value.drop (value.length - len)
  else List.replicate (len - value.length) 0 ++ value

/-- `encode_uint_nat`: a `uint256` word, `NumberOutOfRange` past 32 bytes. -/
def encode_uint_nat (value : Nat) : Except RelayError (List Nat) :=
  let bytes := nat_to_bytes_be value
  if 32 < bytes.length then .error (.NumberOutOfRange "uint256")
  else .ok (pad_left bytes 32)

/-- `encode_uint_u8`: a `uint8` left-padded to a 32-byte word. -/
def encode_uint_u8 (value : Nat) : List Nat :=
  pad_left [value] 32

/-- `encode_bytes32`: exactly 32 bytes, `InvalidNonceLength` otherwise. -/
def encode_bytes32 (value : List Nat) : Except RelayError (List Nat) :=
  if value.length ≠ 32 then .error (.InvalidNonceLength 32 value.length)
  else .ok value

/-- UTF-8 bytes of an ASCII function signature. -/
def string_utf8_bytes (s : String) : List Nat :=
  s.toList.map Char.toNat

/-- `function_selector`: first 4 bytes of the Keccak-256 of the signature. -/
def function_selector (signature : String) : List Nat :=
  (keccak256 (string_utf8_bytes signature)).take 4

/-- `encode_authorization_state_call`: selector ‖ padded sender ‖ nonce. -/
def encode_authorization_state_call (from_bytes nonce : List Nat) : Except RelayError (List Nat) :=
  match encode_bytes32 nonce with
  | .error e => .error e
  | .ok n32 =>
    .ok (function_selector "authorizationState(address,bytes32)" ++ pad_left from_bytes 32 ++ n32)

/-- `encode_transfer_with_authorization_call`: selector and nine 32-byte
words, with signature-length guards first. -/
def encode_transfer_with_authorization_call (from_bytes to_bytes : List Nat)
    (value valid_after valid_before : Nat) (nonce : List Nat) (sig_v : Nat)
    (sig_r sig_s : List Nat) : Except RelayError (List Nat) :=
  if sig_r.length ≠ 32 then .error (.InvalidSignatureLength "sig_r" 32 sig_r.length)
  else if sig_s.length ≠ 32 then .error (.InvalidSignatureLength "sig_s" 32 sig_s.length)
  else
    match encode_uint_nat value with
    | .error e => .error e
    | .ok v32 =>
      match encode_uint_nat valid_after with
      | .error e => .error e
      | .ok va32 =>
        match encode_uint_nat valid_before with
        | .error e => .error e
        | .ok vb32 =>
          match encode_bytes32 nonce with
          | .error e => .error e
          | .ok n32 =>
            .ok (function_selector "transferWithAuthorization(address,address,uint256,uint256,uint256,bytes32,uint8,bytes32,bytes32)"
              ++ pad_left from_bytes 32 ++ pad_left to_bytes 32 ++ v32 ++ va32 ++ vb32
              ++ n32 ++ encode_uint_u8 sig_v ++ sig_r ++ sig_s)

/-! ### Remote-signer adapter (`derive_y_parity`, `sign_prehashed_message`)

`k256`'s `Signature::try_from` and `VerifyingKey::recover_from_prehash` are
external library collaborators; they are supplied as inputs: `parse_ok`
models whether the 64-byte `(r, s)` pair parses as a valid secp256k1
signature, and `recover id` models the SEC1-uncompressed 65-byte encoded
point recovered from the prehash and signature at recovery id `id` (or
`none` when recovery fails). -/

structure SignatureParts where
  y_parity : Nat
  r : List Nat
  s : List Nat
deriving DecidableEq

/-- One candidate of the recovery loop: recovery succeeds, the encoded
point is 65 bytes, and the Keccak address (last 20 of 32 hash bytes of the
key sans the `0x04` prefix) equals the expected relayer address. -/
def recovery_candidate_matches (recover : Nat → Option (List Nat))
    (expected_address : List Nat) (id : Nat) : Bool :=
  match recover id with
  | some pk => pk.length == 65 && (keccak256 (pk.drop 1)).drop 12 == expected_address
  | none => false

/-- The source's loop over recovery-id candidates. -/
def derive_y_parity_loop (recover : Nat → Option (List Nat))
    (expected_address : List Nat) : List Nat → Except RelayError Nat
  | [] => .error (.SignatureRecoveryFailed "no recovery id produced expected relayer address")
  | id :: rest =>
    match recover id with
    | some pk =>
      if pk.length ≠ 65 then derive_y_parity_loop recover expected_address rest
      else if (keccak256 (pk.drop 1)).drop 12 = expected_address then .ok (id % 2)
      else derive_y_parity_loop recover expected_address rest
    | none => derive_y_parity_loop recover expected_address rest

/-- `derive_y_parity`: parse the 64-byte signature, then try recovery ids
0–3 in order; `RecoveryId::is_y_odd` is the id's low bit. -/
def derive_y_parity (parse_ok : Bool) (recover : Nat → Option (List Nat))
    (expected_address : List Nat) : Except RelayError Nat :=
  if parse_ok then derive_y_parity_loop recover expected_address [0, 1, 2, 3]
  else .error (.SignatureRecoveryFailed "invalid signature bytes")

/-- Leading-zero trim that keeps a single `0x00` for the all-zero string
(the source's `trim` + `push(0)` idiom for wire `r`/`s`). -/
def nonzero_trim (bytes : List Nat) : List Nat :=
  let t := trim_leading_zeroes bytes
  if t = [] then [0] else t

/-- The response-processing half of `sign_prehashed_message`: split a
65-byte signature verbatim, derive `y_parity` for a 64-byte one, reject any
other length, then trim `r` and `s` for the wire. -/
def process_signature_bytes (signature : List Nat) (parse_ok : Bool)
    (recover : Nat → Option (List Nat)) (expected_address : List Nat) :
    Except RelayError SignatureParts :=
  let arm : Except RelayError (List Nat × List Nat × Nat) :=
    if signature.length = 65 then
      .ok (signature.take 32, (signature.drop 32).take 32, signature.getD 64 0)
    else if signature.length = 64 then
      match derive_y_parity parse_ok recover expected_address with
      | .ok y => .ok (signature.take 32, (signature.drop 32).take 32, y)
      | .error e => .error e
    else .error (.InvalidSignatureLength "signature" 64 signature.length)
  match arm with
  | .error e => .error e
  | .ok (r_bytes, s_bytes, y) => .ok ⟨y, nonzero_trim r_bytes, nonzero_trim s_bytes⟩

/-! ### EIP-1559 envelope construction -/

/-- The nine RLP-encoded unsigned fields, in the wire order. -/
def unsigned_tx_items (chain_id tx_nonce priority_fee max_fee gas_limit : Nat)
    (to_address call_data : List Nat) : List (List Nat) :=
  [rlp_encode_nat_value chain_id,
   rlp_encode_nat_value tx_nonce,
   rlp_encode_nat_value priority_fee,
   rlp_encode_nat_value max_fee,
   rlp_encode_nat_value gas_limit,
   rlp_encode_bytes to_address,
   rlp_encode_nat_value 0,
   rlp_encode_bytes call_data,
   rlp_encode_list []]

/-- The signing pre-image: `0x02` ‖ RLP list of the nine unsigned fields. -/
def signing_payload (chain_id tx_nonce priority_fee max_fee gas_limit : Nat)
    (to_address call_data : List Nat) : List Nat :=
  0x02 :: rlp_encode_list (unsigned_tx_items chain_id tx_nonce priority_fee max_fee gas_limit to_address call_data)

/-- The signing digest: Keccak-256 of the pre-image. -/
def transaction_sighash (chain_id tx_nonce priority_fee max_fee gas_limit : Nat)
    (to_address call_data : List Nat) : List Nat :=
  keccak256 (signing_payload chain_id tx_nonce priority_fee max_fee gas_limit to_address call_data)

/-- The twelve RLP-encoded signed fields: the unsigned nine extended with
`y_parity`, `r`, `s`. -/
def signed_tx_items (chain_id tx_nonce priority_fee max_fee gas_limit : Nat)
    (to_address call_data : List Nat) (parts : SignatureParts) : List (List Nat) :=
  unsigned_tx_items chain_id tx_nonce priority_fee max_fee gas_limit to_address call_data
    ++ [rlp_encode_nat_value parts.y_parity, rlp_encode_bytes parts.r, rlp_encode_bytes parts.s]

/-- The broadcast payload: `0x02` ‖ RLP list of the twelve signed fields. -/
def raw_transaction (chain_id tx_nonce priority_fee max_fee gas_limit : Nat)
    (to_address call_data : List Nat) (parts : SignatureParts) : List Nat :=
  0x02 :: rlp_encode_list (signed_tx_items chain_id tx_nonce priority_fee max_fee gas_limit to_address call_data parts)

/-! ### Rate limiter -/

structure RateWindowCounter where
  window_start_sec : Nat
  amount : Nat
  hits : Nat
deriving DecidableEq

/-- `RateWindowCounter::default()`. -/
def default_counter : RateWindowCounter := ⟨0, 0, 0⟩

structure RateLimitConfig where
  per_addr_per_min : Nat
  daily_cap_token : Nat
deriving DecidableEq

structure RateLimitState where
  per_min_counter : List (String × RateWindowCounter)
  daily_counter : List (String × RateWindowCounter)
deriving DecidableEq

/-- `BTreeMap` lookup on the association-list model. -/
def map_lookup (m : List (String × RateWindowCounter)) (k : String) : Option RateWindowCounter :=
  (m.find? (fun p => p.1 == k)).map Prod.snd

/-- `BTreeMap` insert-or-replace on the association-list model. -/
def map_insert : List (String × RateWindowCounter) → String → RateWindowCounter →
    List (String × RateWindowCounter)
  | [], k, v => [(k, v)]
  | (k', v') :: rest, k, v =>
    if k' == k then (k, v) :: rest else (k', v') :: map_insert rest k v

def JPYC_UNIT_MULTIPLIER : Nat := 1000000000000000000

/-- `daily_cap_in_smallest_unit`: whole tokens scaled by `10^18`; zero
disables the rule. -/
def daily_cap_in_smallest_unit (config : RateLimitConfig) : Option Nat :=
  if config.daily_cap_token = 0 then none
  else some (config.daily_cap_token * JPYC_UNIT_MULTIPLIER)

/-- `enforce_rate_limits`: per-minute hit rule then 24-hour value rule;
`now_sec` stands for `time() / 10^9`. -/
def enforce_rate_limits (rate_limit : RateLimitConfig) (rate_state : RateLimitState)
    (from_addr : String) (amount : Nat) (now_sec : Nat) :
    Except RelayError Unit × RateLimitState :=
  let step1 : Except RelayError Unit × RateLimitState :=
    if 0 < rate_limit.per_addr_per_min then
      let window := now_sec / 60
      let counter0 := (map_lookup rate_state.per_min_counter from_addr).getD default_counter
      let counter1 := if counter0.window_start_sec ≠ window then ⟨window, 0, 0⟩ else counter0
      if rate_limit.per_addr_per_min ≤ counter1.hits then
        (.error .RateLimited,
         { rate_state with per_min_counter := map_insert rate_state.per_min_counter from_addr counter1 })
      else
        (.ok (),
         { rate_state with per_min_counter := map_insert rate_state.per_min_counter from_addr ⟨counter1.window_start_sec, counter1.amount + amount, counter1.hits + 1⟩ })
    else (.ok (), rate_state)
  match step1 with
  | (.error e, state1) => (.error e, state1)
  | (.ok _, state1) =>
    match daily_cap_in_smallest_unit rate_limit with
    | none => (.ok (), state1)
    | some cap =>
      let window := now_sec / 86400
      let counter0 := (map_lookup state1.daily_counter from_addr).getD default_counter
      let counter1 := if counter0.window_start_sec ≠ window then ⟨window, 0, 0⟩ else counter0
      let counter2 : RateWindowCounter :=
        ⟨counter1.window_start_sec, counter1.amount + amount, counter1.hits + 1⟩
      let state2 := { state1 with daily_counter := map_insert state1.daily_counter from_addr counter2 }
      if cap < counter2.amount then (.error .RateLimited, state2) else (.ok (), state2)

/-- Lazy window reset, as described by the spec (§4.9). -/
def reset_if_stale (c : RateWindowCounter) (window : Nat) : RateWindowCounter :=
  if c.window_start_sec ≠ window then ⟨window, 0, 0⟩ else c

/-- One accepted hit of `amount`. -/
def increment_counter (c : RateWindowCounter) (amount : Nat) : RateWindowCounter :=
  ⟨c.window_start_sec, c.amount + amount, c.hits + 1⟩

/-- The per-minute counter as rule one sees it after the lazy reset. -/
def per_min_view (rs : RateLimitState) (from_addr : String) (now_sec : Nat) : RateWindowCounter :=
  reset_if_stale ((map_lookup rs.per_min_counter from_addr).getD default_counter) (now_sec / 60)

/-- The daily counter as rule two sees it after the lazy reset. -/
def daily_view (rs : RateLimitState) (from_addr : String) (now_sec : Nat) : RateWindowCounter :=
  reset_if_stale ((map_lookup rs.daily_counter from_addr).getD default_counter) (now_sec / 86400)

/-- The state written back when the per-minute rule rejects: only the
reset view, no increment. -/
def per_min_reject_state (rs : RateLimitState) (from_addr : String) (now_sec : Nat) : RateLimitState :=
  { rs with per_min_counter := map_insert rs.per_min_counter from_addr (per_min_view rs from_addr now_sec) }

/-- The state written back when the per-minute rule accepts: the committed
increment. -/
def per_min_commit_state (rs : RateLimitState) (from_addr : String) (amount now_sec : Nat) : RateLimitState :=
  { rs with per_min_counter := map_insert rs.per_min_counter from_addr (increment_counter (per_min_view rs from_addr now_sec) amount) }

/-- The daily counter's committed increment (written back whether or not
the daily rule then rejects). -/
def daily_commit_state (rs : RateLimitState) (from_addr : String) (amount now_sec : Nat) : RateLimitState :=
  { rs with daily_counter := map_insert rs.daily_counter from_addr (increment_counter (daily_view rs from_addr now_sec) amount) }

/-- The daily-cap rule exactly as the spec sentence reads: window
`⌊t/86400⌋`, same reset policy, hits and amount always incremented, reject
when the post-increment amount exceeds the cap; 0 disables. -/
def rate_limiter_daily_model (rate_limit : RateLimitConfig) (rs : RateLimitState)
    (from_addr : String) (amount now_sec : Nat) : Except RelayError Unit × RateLimitState :=
  match daily_cap_in_smallest_unit rate_limit with
  | none => (.ok (), rs)
  | some cap =>
    if cap < (increment_counter (daily_view rs from_addr now_sec) amount).amount then
      (.error .RateLimited, daily_commit_state rs from_addr amount now_sec)
    else (.ok (), daily_commit_state rs from_addr amount now_sec)

/-- The claim's rate-limiter description: when `per_addr_per_min > 0`, reset
the per-minute counter on a stale window, reject before incrementing when
`hits` has reached the limit, otherwise commit the increment and fall
through to the daily rule. -/
def rate_limiter_model (rate_limit : RateLimitConfig) (rs : RateLimitState)
    (from_addr : String) (amount now_sec : Nat) : Except RelayError Unit × RateLimitState :=
  if rate_limit.per_addr_per_min = 0 then
    rate_limiter_daily_model rate_limit rs from_addr amount now_sec
  else if rate_limit.per_addr_per_min ≤ (per_min_view rs from_addr now_sec).hits then
    (.error .RateLimited, per_min_reject_state rs from_addr now_sec)
  else
    rate_limiter_daily_model rate_limit (per_min_commit_state rs from_addr amount now_sec)
      from_addr amount now_sec

/-! ### Canister state -/

/-- `candid::Principal`, opaque in this development. -/
abbrev Principal := Nat

structure RpcTarget where
  canister : Principal
  network : String
deriving DecidableEq

inductive AssetStatus where
  | Active
  | Deprecated
  | Disabled
deriving DecidableEq

structure AssetConfig where
  evm_address : String
  status : AssetStatus
  fee_bps : Nat
  version : Nat
deriving DecidableEq

structure RelayerConfig where
  evm_addr : Option String
  ecdsa_key_name : String
  ecdsa_derivation_path : List (List Nat)
  chain_id : Option Nat
  threshold_wei : Nat
  rpc_target : Option RpcTarget
  max_fee_multiplier : F64
  priority_multiplier : F64
  paused : Bool
deriving DecidableEq

inductive PaymentStatus where
  | Accepted
  | Broadcasted
  | Failed
deriving DecidableEq

structure PaymentLog where
  id : Nat
  ts_sec : Nat
  asset : Principal
  from_addr : String
  to_addr : String
  value : Nat
  status : PaymentStatus
  tx_hash : Option String
  fail_reason : Option String
deriving DecidableEq

structure RelayerState where
  admins : List Principal
  config : RelayerConfig
  assets : List (Principal × AssetConfig)
  rate_limit : RateLimitConfig
  rate_state : RateLimitState
  logs : List PaymentLog
  next_log_id : Nat
  last_known_gas : Nat
deriving DecidableEq

structure SubmitAuthorizationRequest where
  asset : Principal
  from_bytes : List Nat
  to_bytes : List Nat
  value : Nat
  valid_after : Nat
  valid_before : Nat
  nonce : List Nat
  sig_v : Nat
  sig_r : List Nat
  sig_s : List Nat
deriving DecidableEq

/-- `BTreeMap` lookup in the asset registry. -/
def assets_lookup (assets : List (Principal × AssetConfig)) (p : Principal) : Option AssetConfig :=
  (assets.find? (fun q => q.1 == p)).map Prod.snd

/-- `init` arguments (`InitArgs`), with its defaulting behaviour. -/
structure InitArgs where
  admins : List Principal
  ecdsa_key_name : String
  chain_id : Option Nat
  ecdsa_derivation_path : Option (List (List Nat))
  threshold_wei : Option Nat
  max_fee_multiplier : Option F64
  priority_multiplier : Option F64
  rate_limit_per_min : Option Nat
  daily_cap_token : Option Nat
deriving DecidableEq

/-- `InitArgs::default()`. -/
def default_init_args : InitArgs :=
  { admins := []
    ecdsa_key_name := "test_key_1"
    chain_id := none
    ecdsa_derivation_path := none
    threshold_wei := some 0
    max_fee_multiplier := some f64_lit_2_0
    priority_multiplier := some f64_lit_1_2
    rate_limit_per_min := some 10
    daily_cap_token := some 10000 }

/-- `init`: build the initial state; the service starts paused.  The admin
`BTreeSet` is modelled as a list (only membership would matter, and no
claim touches it). -/
def init_state (args : Option InitArgs) (caller : Principal) : RelayerState :=
  let args := args.getD default_init_args
  { admins := caller :: args.admins
    config :=
      { evm_addr := none
        ecdsa_key_name := args.ecdsa_key_name
        ecdsa_derivation_path := args.ecdsa_derivation_path.getD []
        chain_id := args.chain_id
        threshold_wei := args.threshold_wei.getD 0
        rpc_target := none
        max_fee_multiplier := args.max_fee_multiplier.getD f64_lit_2_0
        priority_multiplier := args.priority_multiplier.getD f64_lit_1_2
        paused := true }
    assets := []
    rate_limit :=
      { per_addr_per_min := args.rate_limit_per_min.getD 10
        daily_cap_token := args.daily_cap_token.getD 10000 }
    rate_state := ⟨[], []⟩
    logs := []
    next_log_id := 1
    last_known_gas := 0 }

/-- The admin `pause(flag)` update (after its admin guard). -/
def set_paused (st : RelayerState) (flag : Bool) : RelayerState :=
  { st with config := { st.config with paused := flag } }

/-! ### Durable log -/

/-- `mark_log_failure`: set the first entry with the given id to `Failed`
with the given reason. -/
def mark_log_failure : List PaymentLog → Nat → String → List PaymentLog
  | [], _, _ => []
  | l :: rest, log_id, reason =>
    if l.id = log_id then { l with status := .Failed, fail_reason := some reason } :: rest
    else l :: mark_log_failure rest log_id reason

/-- `mark_log_success`: set the first entry with the given id to
`Broadcasted` with the transaction hash. -/
def mark_log_success : List PaymentLog → Nat → String → List PaymentLog
  | [], _, _ => []
  | l :: rest, log_id, tx_hash =>
    if l.id = log_id then
      { l with status := .Broadcasted, tx_hash := some tx_hash, fail_reason := none } :: rest
    else l :: mark_log_success rest log_id tx_hash

/-- Draw the next log id and append an `Accepted` entry. -/
def reserve_log_entry (st : RelayerState) (req : SubmitAuthorizationRequest)
    (from_hex to_hex : String) (now_sec : Nat) : Nat × RelayerState :=
  let id := st.next_log_id
  (id,
   { st with
       next_log_id := st.next_log_id + 1
       logs := st.logs ++
         [{ id := id, ts_sec := now_sec, asset := req.asset, from_addr := from_hex,
            to_addr := to_hex, value := req.value, status := .Accepted,
            tx_hash := none, fail_reason := none }] })

/-! ### Fee and gas derivation (the pure parts of §4.5) -/

/-- Lines 954–971: floor the estimate at 50 000 before scaling. -/
def gas_limit_floor (gas_estimate : Nat) : Nat :=
  if gas_estimate < 50000 then 50000 else gas_estimate

/-- Lines 954–971: `gas_limit` from the raw `eth_estimateGas` result. -/
def compute_gas_limit (gas_estimate : Nat) : Except RelayError Nat :=
  match scale_nat (gas_limit_floor gas_estimate) f64_lit_1_2 with
  | .error e => .error e
  | .ok val => .ok (if val < gas_estimate then gas_estimate else val)

/-- Lines 989–1007: effective priority fee, with the 1-gwei floor. -/
def compute_priority_fee_effective (priority_fee : Nat) (priority_multiplier : F64) :
    Except RelayError Nat :=
  match scale_nat priority_fee priority_multiplier with
  | .error e => .error e
  | .ok val =>
    let fee := if val < priority_fee then priority_fee else val
    .ok (if fee = 0 then 1000000000 else fee)

/-- Lines 1009–1021: scaled base fee. -/
def compute_base_fee_scaled (base_fee : Nat) (max_fee_multiplier : F64) :
    Except RelayError Nat :=
  match scale_nat base_fee max_fee_multiplier with
  | .error e => .error e
  | .ok val => .ok (if val < base_fee then base_fee else val)

/-- Lines 989–1023 in pipeline order: effective priority fee first, then
the scaled base fee, then their sum; returns
`(priority_fee_effective, max_fee_per_gas)`. -/
def compute_fee_quotes (base_fee priority_fee : Nat) (max_fee_multiplier priority_multiplier : F64) :
    Except RelayError (Nat × Nat) :=
  match compute_priority_fee_effective priority_fee priority_multiplier with
  | .error e => .error e
  | .ok priority_effective =>
    match compute_base_fee_scaled base_fee max_fee_multiplier with
    | .error e => .error e
    | .ok base_scaled => .ok (priority_effective, base_scaled + priority_effective)

/-! ### The authorization pipeline

External collaborators of one pipeline run, gathered in a record: the IC
clock and the outcome of each awaited call (already normalised to
`Except RelayError _` by the JSON-RPC transport or signer shims, exactly as
the corresponding `async fn`s return it). -/

structure CallEnvironment where
  /-- `time() / 1_000_000_000`. -/
  now_sec : Nat
  /-- The `eth_call authorizationState` round trip of
  `ensure_authorization_unused` after hex parsing and ABI bool decoding. -/
  auth_state_used : Except RelayError Bool
  /-- The raw `rpc_request` outcome of `simulate_transfer_call`. -/
  simulate_rpc : Except RelayError Unit
  /-- The raw `rpc_request` ‖ hex-parse outcome of `estimate_gas`. -/
  estimate_rpc : Except RelayError Nat
  /-- `fetch_base_fee`. -/
  base_fee : Except RelayError Nat
  /-- `fetch_max_priority_fee`. -/
  priority_fee : Except RelayError Nat
  /-- `fetch_balance` for the relayer address. -/
  balance : Except RelayError Nat
  /-- `fetch_nonce` (`eth_getTransactionCount`, `"pending"`). -/
  transaction_count : Except RelayError Nat
  /-- The `sign_with_ecdsa` response bytes. -/
  sign_response : Except RelayError (List Nat)
  /-- Whether `k256::Signature::try_from` accepts the 64-byte `(r, s)`. -/
  signature_parse_ok : Bool
  /-- `VerifyingKey::recover_from_prehash` + SEC1 uncompressed encoding,
  per recovery id. -/
  recover : Nat → Option (List Nat)
  /-- `send_raw_transaction` (`eth_sendRawTransaction`). -/
  send_raw_result : Except RelayError String

/-- `ensure_authorization_unused`: encode the `authorizationState` call
(which validates the nonce length), issue it, and reject a used nonce. -/
def ensure_authorization_unused (env : CallEnvironment) (from_bytes nonce : List Nat) :
    Except RelayError Unit :=
  match encode_authorization_state_call from_bytes nonce with
  | .error e => .error e
  | .ok _data =>
    match env.auth_state_used with
    | .error e => .error e
    | .ok used => if used then .error .AuthorizationAlreadyUsed else .ok ()

/-- `simulate_transfer_call`: an `eth_call` whose node-level `RpcError` is
wrapped as `SimulationFailed`. -/
def simulate_transfer_call (env : CallEnvironment) : Except RelayError Unit :=
  match env.simulate_rpc with
  | .ok _ => .ok ()
  | .error (.RpcError _ message) => .error (.SimulationFailed message)
  | .error e => .error e

/-- `estimate_gas`: `eth_estimateGas` with `RpcError` and `HexDecodeFailed`
wrapped as `GasEstimateFailed`. -/
def estimate_gas_call (env : CallEnvironment) : Except RelayError Nat :=
  match env.estimate_rpc with
  | .ok v => .ok v
  | .error (.RpcError _ message) => .error (.GasEstimateFailed message)
  | .error (.HexDecodeFailed value) => .error (.GasEstimateFailed value)
  | .error e => .error e

/-- `sign_prehashed_message`: submit the digest to the signer and process
the response bytes; `_message_hash` reaches the signer through the
environment. -/
def sign_prehashed_message (env : CallEnvironment) (_message_hash : List Nat)
    (expected_address : List Nat) : Except RelayError SignatureParts :=
  match env.sign_response with
  | .error e => .error e
  | .ok signature =>
    process_signature_bytes signature env.signature_parse_ok env.recover expected_address

/-- `send_raw_transaction`: broadcast the raw envelope. -/
def send_raw_transaction (env : CallEnvironment) (_raw_tx : List Nat) :
    Except RelayError String :=
  env.send_raw_result

/-- A post-reservation failure: mark the reserved entry and surface. -/
def fail_with (st : RelayerState) (log_id : Nat) (reason : String) (e : RelayError) :
    Except RelayError String × RelayerState :=
  (.error e, { st with logs := mark_log_failure st.logs log_id reason })

/-- Lines 863–1112: the pipeline from the configuration checks after the
log reservation through broadcast and log finalisation. -/
def pipeline_after_reserve (st : RelayerState) (log_id : Nat)
    (req : SubmitAuthorizationRequest) (env : CallEnvironment)
    (asset_cfg : AssetConfig) (cfg : RelayerConfig) :
    Except RelayError String × RelayerState :=
  if st.config.rpc_target.isNone then
    fail_with st log_id "rpc target not configured" (.ConfigurationMissing "rpc_target")
  else
    match cfg.evm_addr with
    | none => fail_with st log_id "relayer address not configured" .RelayerAddressMissing
    | some relayer_addr =>
      match evm_address_bytes relayer_addr with
      | .error e => fail_with st log_id (relay_error_to_string e) e
      | .ok relayer_addr_bytes =>
        match cfg.chain_id with
        | none => fail_with st log_id "chain id not configured" (.ConfigurationMissing "chain_id")
        | some chain_id_nat =>
          match nat_to_u64 chain_id_nat with
          | .error e => fail_with st log_id (relay_error_to_string e) e
          | .ok _chain_id_u64 =>
            match ensure_authorization_unused env req.from_bytes req.nonce with
            | .error e => fail_with st log_id (relay_error_to_string e) e
            | .ok _ =>
              match encode_transfer_with_authorization_call req.from_bytes req.to_bytes
                  req.value req.valid_after req.valid_before req.nonce req.sig_v
                  req.sig_r req.sig_s with
              | .error e => fail_with st log_id (relay_error_to_string e) e
              | .ok call_data =>
                match simulate_transfer_call env with
                | .error e => fail_with st log_id (relay_error_to_string e) e
                | .ok _ =>
                  match estimate_gas_call env with
                  | .error e => fail_with st log_id (relay_error_to_string e) e
                  | .ok gas_estimate =>
                    match compute_gas_limit gas_estimate with
                    | .error e => fail_with st log_id (relay_error_to_string e) e
                    | .ok gas_limit =>
                      match env.base_fee with
                      | .error e => fail_with st log_id (relay_error_to_string e) e
                      | .ok base_fee =>
                        match env.priority_fee with
                        | .error e => fail_with st log_id (relay_error_to_string e) e
                        | .ok priority_fee =>
                          match compute_fee_quotes base_fee priority_fee
                              cfg.max_fee_multiplier cfg.priority_multiplier with
                          | .error e => fail_with st log_id (relay_error_to_string e) e
                          | .ok (priority_fee_effective, max_fee_per_gas) =>
                            match env.balance with
                            | .error e => fail_with st log_id (relay_error_to_string e) e
                            | .ok balance =>
                              let st := { st with last_known_gas := balance }
                              if balance < cfg.threshold_wei then
                                fail_with st log_id "relayer gas below threshold"
                                  (.GasBalanceLow cfg.threshold_wei balance)
                              else
                                match env.transaction_count with
                                | .error e => fail_with st log_id (relay_error_to_string e) e
                                | .ok tx_nonce =>
                                  match evm_address_bytes asset_cfg.evm_address with
                                  | .error e => fail_with st log_id (relay_error_to_string e) e
                                  | .ok asset_address_bytes =>
                                    let sighash := transaction_sighash chain_id_nat tx_nonce
                                      priority_fee_effective max_fee_per_gas gas_limit
                                      asset_address_bytes call_data
                                    match sign_prehashed_message env sighash relayer_addr_bytes with
                                    | .error e => fail_with st log_id (relay_error_to_string e) e
                                    | .ok parts =>
                                      let raw_tx := raw_transaction chain_id_nat tx_nonce
                                        priority_fee_effective max_fee_per_gas gas_limit
                                        asset_address_bytes call_data parts
                                      match send_raw_transaction env raw_tx with
                                      | .error e => fail_with st log_id (relay_error_to_string e) e
                                      | .ok tx_hash =>
                                        (.ok tx_hash,
                                         { st with logs := mark_log_success st.logs log_id tx_hash })

/-- Lines 844–861 onwards: rate limiting, log reservation, and the rest. -/
def pipeline_from_rate_limit (st : RelayerState) (req : SubmitAuthorizationRequest)
    (env : CallEnvironment) (asset_cfg : AssetConfig) (cfg : RelayerConfig)
    (from_hex to_hex : String) (now_sec : Nat) :
    Except RelayError String × RelayerState :=
  let rl := enforce_rate_limits st.rate_limit st.rate_state from_hex req.value now_sec
  let st := { st with rate_state := rl.2 }
  match rl.1 with
  | .error e => (.error e, st)
  | .ok _ =>
    let reserved := reserve_log_entry st req from_hex to_hex now_sec
    pipeline_after_reserve reserved.2 reserved.1 req env asset_cfg cfg

/-- `submit_authorization_internal` (lines 795–1113): the single entry
point of the pipeline. -/
def submit_authorization_internal (st : RelayerState) (req : SubmitAuthorizationRequest)
    (env : CallEnvironment) : Except RelayError String × RelayerState :=
  if st.config.paused then (.error .Paused, st)
  else if req.from_bytes.length ≠ 20 then
    (.error (.InvalidAddressLength "from" 20 req.from_bytes.length), st)
  else if req.to_bytes.length ≠ 20 then
    (.error (.InvalidAddressLength "to" 20 req.to_bytes.length), st)
  else
    match assets_lookup st.assets req.asset with
    | none => (.error .AssetNotRegistered, st)
    | some asset_cfg =>
      if asset_cfg.status = .Disabled then (.error .AssetNotActive, st)
      else
        let cfg := st.config
        match nat_to_u64 req.valid_before with
        | .error _ => (.error (.NumberOutOfRange "valid_before"), st)
        | .ok valid_before =>
          if valid_before ≤ env.now_sec then (.error .AuthorizationExpired, st)
          else
            match to_hex_address req.from_bytes with
            | .error e => (.error e, st)
            | .ok from_hex =>
              match to_hex_address req.to_bytes with
              | .error e => (.error e, st)
              | .ok to_hex =>
                pipeline_from_rate_limit st req env asset_cfg cfg from_hex to_hex env.now_sec

/-! ### Observable log discipline of a pipeline run -/

/-- What one `submit_authorization` call may do to the durable log: either
it returns an error having left the log untouched (pre-reservation
failure), or it reserved exactly one fresh entry and finalised it —
`Broadcasted` with the transaction hash on success, `Failed` on error with
either the stringified error or one of the three hard-coded reasons the
source writes on the missing-rpc-target, missing-chain-id and
gas-below-threshold paths. -/
def log_discipline (st st' : RelayerState) (res : Except RelayError String) : Prop :=
  match res with
  | .ok tx_hash =>
    st'.next_log_id = st.next_log_id + 1 ∧
    ∃ entry : PaymentLog, st'.logs = st.logs ++ [entry] ∧ entry.id = st.next_log_id ∧
      entry.status = .Broadcasted ∧ entry.tx_hash = some tx_hash
  | .error e =>
    (st'.logs = st.logs ∧ st'.next_log_id = st.next_log_id) ∨
    (st'.next_log_id = st.next_log_id + 1 ∧
     ∃ entry : PaymentLog, st'.logs = st.logs ++ [entry] ∧ entry.id = st.next_log_id ∧
       entry.status = .Failed ∧
       (entry.fail_reason = some (relay_error_to_string e) ∨
        entry.fail_reason = some "rpc target not configured" ∨
        entry.fail_reason = some "chain id not configured" ∨
        entry.fail_reason = some "relayer gas below threshold"))

/-! ### Concrete fixtures for witnesses and counterexamples -/

/-- A registered, active asset. -/
def example_asset_cfg : AssetConfig :=
  { evm_address := "0x0000000000000000000000000000000000000002"
    status := .Active
    fee_bps := 0
    version := 1 }

/-- A fully configured, unpaused relayer configuration. -/
def example_open_config : RelayerConfig :=
  { evm_addr := some "0x0000000000000000000000000000000000000001"
    ecdsa_key_name := "test_key_1"
    ecdsa_derivation_path := []
    chain_id := some 1
    threshold_wei := 0
    rpc_target := some ⟨9, "custom:https://rpc.example"⟩
    max_fee_multiplier := f64_lit_2_0
    priority_multiplier := f64_lit_1_2
    paused := false }

/-- An operational state with rate limiting disabled and an empty log. -/
def example_state : RelayerState :=
  { admins := [0]
    config := example_open_config
    assets := [(7, example_asset_cfg)]
    rate_limit := ⟨0, 0⟩
    rate_state := ⟨[], []⟩
    logs := []
    next_log_id := 1
    last_known_gas := 0 }

/-- A benign external environment. -/
def example_env : CallEnvironment :=
  { now_sec := 0
    auth_state_used := .ok false
    simulate_rpc := .ok ()
    estimate_rpc := .ok 120000
    base_fee := .ok 30000000000
    priority_fee := .ok 2000000000
    balance := .ok 1
    transaction_count := .ok 0
    sign_response := .error (.RpcTransportError "SysTransient" "signer unavailable")
    signature_parse_ok := true
    recover := fun _ => none
    send_raw_result := .ok "0x0000000000000000000000000000000000000000000000000000000000000000" }

/-- A request that is well-shaped except for its empty EIP-3009 nonce. -/
def example_bad_nonce_request : SubmitAuthorizationRequest :=
  { asset := 7
    from_bytes := List.replicate 20 0
    to_bytes := List.replicate 20 0
    value := 1
    valid_after := 0
    valid_before := 10
    nonce := []
    sig_v := 27
    sig_r := List.replicate 32 1
    sig_s := List.replicate 32 1 }

/-- A well-shaped request whose `valid_before` equals the current second. -/
def example_expired_request : SubmitAuthorizationRequest :=
  { example_bad_nonce_request with valid_before := 0 }

/-! ### Helper lemmas -/

theorem ite_lt_eq_max (a b : Nat) : (if a < b then b else a) = max a b := by
  rw [Nat.max_def]
  split_ifs <;> omega

theorem dropLast_append_singleton {α : Type} (l : List α) (x : α) :
    (l ++ [x]).dropLast = l := by
  simp

theorem dropLast3_append {α : Type} (l : List α) (a b c : α) :
    (l ++ [a, b, c]).dropLast.dropLast.dropLast = l := by
  have h : l ++ [a, b, c] = ((l ++ [a]) ++ [b]) ++ [c] := by simp
  rw [h, dropLast_append_singleton, dropLast_append_singleton, dropLast_append_singleton]

theorem pair_error_inj {σ : Type} {x e : RelayError} {s s' : σ}
    (h : ((Except.error x : Except RelayError Unit), s) = (Except.error e, s')) :
    x = e ∧ s = s' := by
  have h1 : (Except.error x : Except RelayError Unit) = Except.error e := congrArg Prod.fst h
  exact ⟨by injection h1, congrArg Prod.snd h⟩

theorem pair_ok_ne_error {σ : Type} {e : RelayError} {s s' : σ}
    (h : ((Except.ok () : Except RelayError Unit), s) = (Except.error e, s')) : False := by
  have h1 : (Except.ok () : Except RelayError Unit) = Except.error e := congrArg Prod.fst h
  exact Except.noConfusion h1

/-! ### C1 -/

/-- C1: for the values reaching the envelope builder, the signing digest is
Keccak-256 of `0x02` followed by the RLP list of the nine unsigned fields
(chain id, transaction nonce, max-priority fee, max fee, gas limit, the
asset contract as `to`, value `0`, the call data, and the empty access
list); the broadcast payload is `0x02` followed by the RLP list of those
same nine encoded items extended with `y_parity`, `r`, `s`; and stripping
the last three items from the broadcast list and re-hashing yields the same
digest. -/
theorem c1_envelope_digest (chain_id tx_nonce priority_fee max_fee gas_limit : Nat)
    (to_address call_data : List Nat) (parts : SignatureParts) :
    transaction_sighash chain_id tx_nonce priority_fee max_fee gas_limit to_address call_data =
      keccak256 (0x02 :: rlp_encode_list
        [rlp_encode_nat_value chain_id, rlp_encode_nat_value tx_nonce,
         rlp_encode_nat_value priority_fee, rlp_encode_nat_value max_fee,
         rlp_encode_nat_value gas_limit, rlp_encode_bytes to_address,
         rlp_encode_nat_value 0, rlp_encode_bytes call_data, rlp_encode_list []])
    ∧ raw_transaction chain_id tx_nonce priority_fee max_fee gas_limit to_address call_data parts =
      0x02 :: rlp_encode_list
        ([rlp_encode_nat_value chain_id, rlp_encode_nat_value tx_nonce,
          rlp_encode_nat_value priority_fee, rlp_encode_nat_value max_fee,
          rlp_encode_nat_value gas_limit, rlp_encode_bytes to_address,
          rlp_encode_nat_value 0, rlp_encode_bytes call_data, rlp_encode_list []] ++
         [rlp_encode_nat_value parts.y_parity, rlp_encode_bytes parts.r, rlp_encode_bytes parts.s])
    ∧ keccak256 (0x02 :: rlp_encode_list
        ((signed_tx_items chain_id tx_nonce priority_fee max_fee gas_limit to_address call_data parts).dropLast.dropLast.dropLast)) =
      transaction_sighash chain_id tx_nonce priority_fee max_fee gas_limit to_address call_data := by
  refine ⟨rfl, rfl, ?_⟩
  unfold signed_tx_items
  rw [dropLast3_append]
  rfl

/-! ### C2 -/

/-- C2: for fees delivered by the RPC, the pipeline computes
`priority_effective = max(ceil(p × priority_multiplier), p)`, replaced by
`10^9` when that value is zero, `base_scaled = max(ceil(b ×
max_fee_multiplier), b)` and `max_fee_per_gas = base_scaled +
priority_effective`; and each `ceil`-multiplication is `scale_nat`, which
routes a `u128` value through `f64`, takes the ceiling, and rejects
NaN/infinite/negative results as `NumberOutOfRange` (a value not
representable in `u128` is likewise `NumberOutOfRange`). -/
theorem c2_fee_strategy (base_fee priority_fee : Nat)
    (max_fee_multiplier priority_multiplier : F64) (v : Nat) (m : F64) :
    (compute_fee_quotes base_fee priority_fee max_fee_multiplier priority_multiplier =
      match scale_nat priority_fee priority_multiplier with
      | .error e => .error e
      | .ok pv =>
        match scale_nat base_fee max_fee_multiplier with
        | .error e => .error e
        | .ok bv =>
          .ok (if max pv priority_fee = 0 then 1000000000 else max pv priority_fee,
               max bv base_fee + (if max pv priority_fee = 0 then 1000000000 else max pv priority_fee)))
    ∧ scale_nat v m =
      (if v < 2 ^ 128 then
        (if f64_is_nan (f64_ceil (f64_mul (u128_to_f64 v) m))
            || f64_is_infinite (f64_ceil (f64_mul (u128_to_f64 v) m))
            || f64_lt_zero (f64_ceil (f64_mul (u128_to_f64 v) m)) then
          .error (.NumberOutOfRange "scaled nat")
        else .ok (f64_as_u128 (f64_ceil (f64_mul (u128_to_f64 v) m))))
      else .error (.NumberOutOfRange "u128")) := by
  constructor
  · unfold compute_fee_quotes compute_priority_fee_effective compute_base_fee_scaled
    cases scale_nat priority_fee priority_multiplier with
    | error e => rfl
    | ok pv =>
      cases scale_nat base_fee max_fee_multiplier with
      | error e => simp [ite_lt_eq_max]
      | ok bv => simp [ite_lt_eq_max]
  · unfold scale_nat nat_to_u128
    by_cases h : v < 2 ^ 128
    · rw [if_pos h, if_pos h]
    · rw [if_neg h, if_neg h]

/-! ### C3 -/

/-- C3: for every raw `eth_estimateGas` result `e`, the pipeline's gas
limit is `max(ceil(max(e, 50000) × 1.2), e)` (the ceiling through the same
`f64` path); in particular the computed gas limit is never below the raw
estimate, and the pre-scale value is `max(e, 50000)`, i.e. exactly `50000`
whenever `e < 50000`. -/
theorem c3_gas_limit (gas_estimate : Nat) :
    (compute_gas_limit gas_estimate =
      match scale_nat (max gas_estimate 50000) f64_lit_1_2 with
      | .error e => .error e
      | .ok v => .ok (max v gas_estimate))
    ∧ (match compute_gas_limit gas_estimate with
       | .ok v => gas_estimate ≤ v
       | .error _ => True)
    ∧ gas_limit_floor gas_estimate = max gas_estimate 50000 := by
  have hfloor : gas_limit_floor gas_estimate = max gas_estimate 50000 := by
    unfold gas_limit_floor
    exact ite_lt_eq_max gas_estimate 50000
  refine ⟨?_, ?_, hfloor⟩
  · unfold compute_gas_limit
    rw [hfloor]
    cases scale_nat (max gas_estimate 50000) f64_lit_1_2 with
    | error e => rfl
    | ok v => simp [ite_lt_eq_max]
  · unfold compute_gas_limit
    cases scale_nat (gas_limit_floor gas_estimate) f64_lit_1_2 with
    | error e => simp
    | ok v =>
      simp only
      split <;> omega

/-! ### C10 -/

/-- C10: `init` always leaves the relayer paused (whatever the arguments),
a paused relayer rejects every `submit_authorization` with the `Paused`
error and leaves the state untouched (no validation, rate limiting,
logging or RPC), the error displays as "service paused", and the admin
`pause(flag)` update is what clears the gate. -/
theorem c10_paused_gate (st : RelayerState) (req : SubmitAuthorizationRequest)
    (env : CallEnvironment) (args : Option InitArgs) (caller : Principal)
    (st2 : RelayerState) (flag : Bool)
    (h : st.config.paused = true) :
    submit_authorization_internal st req env = (.error .Paused, st)
    ∧ (init_state args caller).config.paused = true
    ∧ relay_error_to_string .Paused = "service paused"
    ∧ (set_paused st2 flag).config.paused = flag := by
  refine ⟨?_, rfl, rfl, rfl⟩
  unfold submit_authorization_internal
  simp [h]

/-- Witness for C10 at the freshly initialised state. -/
theorem c10_paused_gate_witness :
    (init_state none 0).config.paused = true
    ∧ submit_authorization_internal (init_state none 0) example_bad_nonce_request example_env =
        (.error .Paused, init_state none 0) :=
  ⟨by decide,
   (c10_paused_gate (init_state none 0) example_bad_nonce_request example_env none 0
     (init_state none 0) false (by decide)).1⟩

/-! ### Digit lemmas for the RLP codec -/

theorem be_bytes_append (l : List Nat) (d : Nat) :
    be_bytes_to_nat (l ++ [d]) = be_bytes_to_nat l * 256 + d := by
  unfold be_bytes_to_nat
  rw [List.foldl_append]
  rfl

theorem base256_digits_aux_zero (f : Nat) : base256_digits_aux f 0 = [] := by
  match f with
  | 0 => rfl
  | f + 1 => simp [base256_digits_aux]

theorem base256_digits_aux_value (n : Nat) : ∀ f, n ≤ f →
    be_bytes_to_nat ((base256_digits_aux f n).reverse) = n := by
  induction n using Nat.strong_induction_on with
  | _ n ih =>
    intro f hf
    match f with
    | 0 =>
      have hn : n = 0 := by omega
      subst hn
      rfl
    | f + 1 =>
      by_cases h0 : n = 0
      · subst h0
        rfl
      · unfold base256_digits_aux
        rw [if_neg h0, List.reverse_cons, be_bytes_append]
        have hlt : n / 256 < n := Nat.div_lt_self (Nat.pos_of_ne_zero h0) (by omega)
        rw [ih (n / 256) hlt f (by omega)]
        omega

theorem base256_digits_aux_ne_nil (n f : Nat) (h0 : 0 < n) (hf : n ≤ f) :
    base256_digits_aux f n ≠ [] := by
  match f with
  | 0 => omega
  | f + 1 =>
    unfold base256_digits_aux
    rw [if_neg (by omega)]
    simp

theorem base256_digits_aux_len_le (n : Nat) : ∀ f k, n ≤ f → n < 256 ^ k →
    (base256_digits_aux f n).length ≤ k := by
  induction n using Nat.strong_induction_on with
  | _ n ih =>
    intro f k hf hk
    match f with
    | 0 =>
      have hn : n = 0 := by omega
      subst hn
      simp [base256_digits_aux]
    | f + 1 =>
      by_cases h0 : n = 0
      · subst h0
        simp [base256_digits_aux]
      · unfold base256_digits_aux
        rw [if_neg h0]
        match k with
        | 0 =>
          exfalso
          simp at hk
          omega
        | k + 1 =>
          simp only [List.length_cons]
          have hlt : n / 256 < n := Nat.div_lt_self (Nat.pos_of_ne_zero h0) (by omega)
          have hdiv : n / 256 < 256 ^ k := by
            rw [Nat.div_lt_iff_lt_mul (by omega : 0 < 256)]
            rw [Nat.pow_succ] at hk
            omega
          have := ih (n / 256) hlt f k (by omega) hdiv
          omega

theorem base256_digits_aux_two_digits (n f : Nat) (h : 256 ≤ n) (hf : n ≤ f) :
    2 ≤ (base256_digits_aux f n).length := by
  match f with
  | 0 => omega
  | f + 1 =>
    unfold base256_digits_aux
    rw [if_neg (by omega)]
    simp only [List.length_cons]
    have h1 : 0 < n / 256 := Nat.div_pos h (by omega)
    have hlt : n / 256 < n := Nat.div_lt_self (by omega) (by omega)
    have h2 := base256_digits_aux_ne_nil (n / 256) f h1 (by omega)
    have h3 : 0 < (base256_digits_aux f (n / 256)).length := List.length_pos.mpr h2
    omega

theorem digits_reverse_head (n : Nat) : ∀ f, 0 < n → n ≤ f →
    ∃ d ds, (base256_digits_aux f n).reverse = d :: ds ∧ 0 < d := by
  induction n using Nat.strong_induction_on with
  | _ n ih =>
    intro f h0 hf
    match f with
    | 0 => omega
    | f + 1 =>
      unfold base256_digits_aux
      rw [if_neg (by omega), List.reverse_cons]
      by_cases h256 : n < 256
      · rw [Nat.div_eq_of_lt h256, base256_digits_aux_zero, Nat.mod_eq_of_lt h256]
        exact ⟨n, [], by simp, h0⟩
      · have h1 : 0 < n / 256 := Nat.div_pos (by omega) (by omega)
        have hlt : n / 256 < n := Nat.div_lt_self (by omega) (by omega)
        obtain ⟨d, ds, hds, hd⟩ := ih (n / 256) hlt f h1 (by omega)
        exact ⟨d, ds ++ [n % 256], by rw [hds]; rfl, hd⟩

theorem nat_to_be_bytes_pos (n : Nat) (h0 : 0 < n) :
    nat_to_be_bytes n = (base256_digits_aux n n).reverse := by
  unfold nat_to_be_bytes nat_to_bytes_be base256_digits
  rw [if_neg (by omega)]
  obtain ⟨d, ds, hds, hd⟩ := digits_reverse_head n n h0 (Nat.le_refl n)
  rw [hds]
  unfold trim_leading_zeroes
  rw [if_neg (by omega)]

theorem base256_digits_aux_small (n f : Nat) (h0 : 0 < n) (h256 : n < 256) (hf : n ≤ f) :
    base256_digits_aux f n = [n] := by
  match f with
  | 0 => omega
  | f + 1 =>
    unfold base256_digits_aux
    rw [if_neg (by omega), Nat.mod_eq_of_lt h256, Nat.div_eq_of_lt h256, base256_digits_aux_zero]

theorem length_to_bytes_pos (len : Nat) (h : 0 < len) :
    length_to_bytes len = (base256_digits_aux len len).reverse := by
  unfold length_to_bytes base256_digits
  have h1 := base256_digits_aux_ne_nil len len h (Nat.le_refl len)
  rw [if_neg (by simpa using h1)]

theorem length_to_bytes_len_pos (len : Nat) : 0 < (length_to_bytes len).length := by
  unfold length_to_bytes
  by_cases h : base256_digits len = []
  · simp [h]
  · simp [h, List.length_pos.mpr h]

/-! ### C4 (corrected) -/

/-- Counterexample to C4 as stated: the unsigned-integer encoding of zero
is `[0x80]`, whose first byte is not below `0x80`, although `0 < 0x80`; so
"the encoding begins with a byte below 0x80 iff n < 0x80" fails at
`n = 0`. -/
theorem c4_counterexample :
    ¬ (((rlp_encode_nat_value 0).headD 0 < 0x80) ↔ ((0 : Nat) < 0x80)) := by
  decide

/-- C4 amended: the byte-string encoder is canonical exactly as claimed
(single byte below `0x80` stands for itself, `0x80 + |B|` prefixes short
strings, `0xB7` plus the length-of-length prefixes long strings); the
unsigned-integer encoding strips all leading zero bytes and zero encodes as
`[0x80]`; the encoding of a *positive* integer begins with a byte below
`0x80` iff the integer is below `0x80` (the claim's unrestricted "for every
n" fails at `n = 0`); and the reference decoder inverts the encoder on
every byte string whose length fits in `usize` (`< 2^64`). -/
theorem c4_amended (B : List Nat) (n : Nat) (hB : B.length < 2 ^ 64) :
    rlp_encode_bytes B =
      (if B.length = 1 ∧ B.headD 0 < 0x80 then B
       else if B.length ≤ 55 then (0x80 + B.length) :: B
       else (0xB7 + (length_to_bytes B.length).length) :: (length_to_bytes B.length ++ B))
    ∧ rlp_encode_nat_value n = rlp_encode_bytes (trim_leading_zeroes (nat_to_bytes_be n))
    ∧ rlp_encode_nat_value 0 = [0x80]
    ∧ (((rlp_encode_nat_value (n + 1)).headD 0 < 0x80) ↔ (n + 1 < 0x80))
    ∧ rlp_decode_bytes (rlp_encode_bytes B) = some B := by
  refine ⟨?_, rfl, rfl, ?_, ?_⟩
  · unfold rlp_encode_bytes
    by_cases h0 : B.length = 0
    · have hnil : B = [] := List.length_eq_zero.mp h0
      subst hnil
      simp
    · rw [if_neg h0]
  · have hpos : 0 < n + 1 := Nat.succ_pos n
    unfold rlp_encode_nat_value
    rw [nat_to_be_bytes_pos (n + 1) hpos]
    by_cases h256 : n + 1 < 256
    · rw [base256_digits_aux_small (n + 1) (n + 1) hpos h256 (Nat.le_refl _)]
      by_cases hsmall : n + 1 < 0x80
      · simp [rlp_encode_bytes, hsmall]
      · simp [rlp_encode_bytes, hsmall]
    · have h2 := base256_digits_aux_two_digits (n + 1) (n + 1) (by omega) (Nat.le_refl _)
      have h2' : 2 ≤ (base256_digits_aux (n + 1) (n + 1)).reverse.length := by
        rw [List.length_reverse]
        exact h2
      unfold rlp_encode_bytes
      rw [if_neg (by omega), if_neg (by omega)]
      have h3 := length_to_bytes_len_pos (base256_digits_aux (n + 1) (n + 1)).reverse.length
      by_cases h55 : (base256_digits_aux (n + 1) (n + 1)).reverse.length ≤ 55
      · rw [if_pos h55]
        constructor
        · intro h
          simp at h
        · intro h
          omega
      · rw [if_neg h55]
        constructor
        · intro h
          simp at h
          omega
        · intro h
          omega
  · match B, hB with
    | [], _ => rfl
    | [b], _ =>
      by_cases hb : b < 0x80
      · simp [rlp_encode_bytes, rlp_decode_bytes, hb]
      · simp [rlp_encode_bytes, rlp_decode_bytes, hb]
    | b1 :: b2 :: rest, hB =>
      have hlen2 : 2 ≤ (b1 :: b2 :: rest).length := by simp
      have hne1 : ¬ ((b1 :: b2 :: rest).length = 1 ∧ (b1 :: b2 :: rest).headD 0 < 0x80) := by
        intro hcontra
        have := hcontra.1
        simp at this
      by_cases h55 : (b1 :: b2 :: rest).length ≤ 55
      · unfold rlp_encode_bytes
        rw [if_neg (by simp), if_neg hne1, if_pos h55]
        simp only [rlp_decode_bytes]
        rw [if_neg (by omega), if_pos (by omega), if_pos (by omega)]
      · unfold rlp_encode_bytes
        rw [if_neg (by simp), if_neg hne1, if_neg h55]
        have hL : 0 < (b1 :: b2 :: rest).length := by omega
        have hlb := length_to_bytes_pos (b1 :: b2 :: rest).length hL
        have hk1 : 0 < (length_to_bytes (b1 :: b2 :: rest).length).length := by
          rw [hlb, List.length_reverse]
          exact List.length_pos.mpr
            (base256_digits_aux_ne_nil _ _ hL (Nat.le_refl _))
        have hk8 : (length_to_bytes (b1 :: b2 :: rest).length).length ≤ 8 := by
          rw [hlb, List.length_reverse]
          refine base256_digits_aux_len_le _ _ 8 (Nat.le_refl _) ?_
          have hpow : (256 : Nat) ^ 8 = 2 ^ 64 := by norm_num
          rw [hpow]
          exact hB
        have hval : be_bytes_to_nat (length_to_bytes (b1 :: b2 :: rest).length) =
            (b1 :: b2 :: rest).length := by
          rw [hlb]
          exact base256_digits_aux_value _ _ (Nat.le_refl _)
        simp only [rlp_decode_bytes]
        rw [if_neg (by omega), if_neg (by omega), if_pos (by omega)]
        have hs : 0xB7 + (length_to_bytes (b1 :: b2 :: rest).length).length - 0xB7 =
            (length_to_bytes (b1 :: b2 :: rest).length).length := by omega
        rw [hs, List.take_left, List.drop_left, hval]
        rw [if_pos ⟨rfl, by simp [List.length_append], by omega⟩]

/-- Witness for C4 amended at a concrete byte string and integer. -/
theorem c4_amended_witness :
    ([5, 200, 0] : List Nat).length < 2 ^ 64 ∧
    rlp_decode_bytes (rlp_encode_bytes [5, 200, 0]) = some [5, 200, 0] :=
  ⟨by decide, (c4_amended [5, 200, 0] 3 (by decide)).2.2.2.2⟩

/-! ### C5 -/

theorem derive_y_parity_loop_eq_find (recover : Nat → Option (List Nat))
    (expected : List Nat) (ids : List Nat) :
    derive_y_parity_loop recover expected ids =
      match ids.find? (recovery_candidate_matches recover expected) with
      | some id => .ok (id % 2)
      | none => .error (.SignatureRecoveryFailed "no recovery id produced expected relayer address") := by
  induction ids with
  | nil => rfl
  | cons id rest ih =>
    unfold derive_y_parity_loop
    cases hrec : recover id with
    | none =>
      have hcand : recovery_candidate_matches recover expected id = false := by
        unfold recovery_candidate_matches
        rw [hrec]
      simp [List.find?_cons, hcand, ih]
    | some pk =>
      by_cases hlen : pk.length = 65
      · by_cases hmatch : (keccak256 pk.tail).drop 12 = expected
        · have hcand : recovery_candidate_matches recover expected id = true := by
            unfold recovery_candidate_matches
            rw [hrec]
            simp [hlen, List.drop_one, hmatch]
          simp [List.find?_cons, hcand, hlen, List.drop_one, hmatch]
        · have hcand : recovery_candidate_matches recover expected id = false := by
            unfold recovery_candidate_matches
            rw [hrec]
            simp [hlen, List.drop_one, hmatch]
          simp [List.find?_cons, hcand, hlen, List.drop_one, hmatch, ih]
      · have hcand : recovery_candidate_matches recover expected id = false := by
          unfold recovery_candidate_matches
          rw [hrec]
          simp [hlen]
        simp [List.find?_cons, hcand, hlen, ih]

/-- C5: the signer-response processing splits a 65-byte signature as
`r = bytes 0..32`, `s = bytes 32..64` and `y_parity = byte 64` taken
verbatim (`r` and `s` are then leading-zero-trimmed for the RLP wire); for
a 64-byte signature it derives `y_parity` by trying recovery ids 0, 1, 2, 3
in order, recovering a secp256k1 key from the prehash for each, hashing the
64-byte uncompressed key (without the `0x04` prefix) with Keccak-256, and
returning the low bit of the first id whose last-20-bytes address equals
the configured relayer address, failing with `SignatureRecoveryFailed` when
none matches (or when the 64 bytes do not parse as a signature); any other
length is an `InvalidSignatureLength` error. -/
theorem c5_signature_processing (signature : List Nat) (parse_ok : Bool)
    (recover : Nat → Option (List Nat)) (expected_address : List Nat) :
    process_signature_bytes signature parse_ok recover expected_address =
      (if signature.length = 65 then
        .ok ⟨signature.getD 64 0, nonzero_trim (signature.take 32),
             nonzero_trim ((signature.drop 32).take 32)⟩
      else if signature.length = 64 then
        (if parse_ok then
          match [0, 1, 2, 3].find? (recovery_candidate_matches recover expected_address) with
          | some id =>
            .ok ⟨id % 2, nonzero_trim (signature.take 32),
                 nonzero_trim ((signature.drop 32).take 32)⟩
          | none => .error (.SignatureRecoveryFailed "no recovery id produced expected relayer address")
        else .error (.SignatureRecoveryFailed "invalid signature bytes"))
      else .error (.InvalidSignatureLength "signature" 64 signature.length)) := by
  unfold process_signature_bytes derive_y_parity
  by_cases h65 : signature.length = 65
  · simp [h65]
  · by_cases h64 : signature.length = 64
    · cases parse_ok with
      | false => simp [h65, h64]
      | true =>
        simp only [h65, h64, if_false, if_true, ite_true, ite_false,
          derive_y_parity_loop_eq_find, Bool.true_eq_false]
        cases [0, 1, 2, 3].find? (recovery_candidate_matches recover expected_address) with
        | none => simp
        | some id => simp
    · simp [h65, h64]

/-! ### C7 -/

/-- C7: the rate limiter behaves exactly as described — when
`per_addr_per_min > 0` the per-minute counter is reset on a stale
`⌊t/60⌋` window, the request is rejected with `RateLimited` when `hits`
has already reached the limit (before incrementing), and otherwise the hit
and amount are committed; when `daily_cap_token > 0` the daily counter is
reset the same way on the `⌊t/86400⌋` window, always incremented, and the
request is rejected when the post-increment amount exceeds
`daily_cap_token · 10^18`; a zero config value disables the rule (both
zero: the call is a no-op that accepts). -/
theorem enforce_rate_limits_eq_model (rl : RateLimitConfig) (rs : RateLimitState)
    (from_addr : String) (amount now_sec : Nat) :
    enforce_rate_limits rl rs from_addr amount now_sec =
      rate_limiter_model rl rs from_addr amount now_sec := by
  by_cases hp : rl.per_addr_per_min = 0
  · have hnp : ¬ 0 < rl.per_addr_per_min := by omega
    simp only [enforce_rate_limits, rate_limiter_model, rate_limiter_daily_model,
      daily_commit_state, daily_view, per_min_view, per_min_reject_state,
      per_min_commit_state, reset_if_stale, increment_counter, if_neg hnp, if_pos hp]
  · have hp' : 0 < rl.per_addr_per_min := Nat.pos_of_ne_zero hp
    simp only [enforce_rate_limits, rate_limiter_model, rate_limiter_daily_model,
      daily_commit_state, daily_view, per_min_view, per_min_reject_state,
      per_min_commit_state, reset_if_stale, increment_counter, if_pos hp', if_neg hp]
    by_cases hle : rl.per_addr_per_min ≤
        (if ((map_lookup rs.per_min_counter from_addr).getD default_counter).window_start_sec ≠ now_sec / 60 then
          ({ window_start_sec := now_sec / 60, amount := 0, hits := 0 } : RateWindowCounter)
        else (map_lookup rs.per_min_counter from_addr).getD default_counter).hits
    · rw [if_pos hle, if_pos hle]
    · rw [if_neg hle, if_neg hle]

theorem c7_rate_limiter (rl : RateLimitConfig) (rs : RateLimitState)
    (from_addr : String) (amount now_sec : Nat) :
    enforce_rate_limits rl rs from_addr amount now_sec =
      rate_limiter_model rl rs from_addr amount now_sec
    ∧ enforce_rate_limits ⟨0, 0⟩ rs from_addr amount now_sec = (.ok (), rs) :=
  ⟨enforce_rate_limits_eq_model rl rs from_addr amount now_sec, rfl⟩

/-! ### C8 (corrected) -/

/-- Counterexample to C8 as stated: with the per-minute rule disabled and a
daily cap of one token, a first submission of two tokens is rejected with
`RateLimited`, yet the rejecting daily rule has committed its increment —
the stored counter holds the post-increment amount `2 · 10^18` and one hit,
not the merely-reset counter (whose amount would be `0`). -/
theorem c8_counterexample :
    (enforce_rate_limits ⟨0, 1⟩ ⟨[], []⟩ "0xa" 2000000000000000000 0).1 = .error .RateLimited
    ∧ map_lookup (enforce_rate_limits ⟨0, 1⟩ ⟨[], []⟩ "0xa" 2000000000000000000 0).2.daily_counter "0xa" =
        some ⟨0, 2000000000000000000, 1⟩
    ∧ (reset_if_stale default_counter (0 / 86400)).amount = 0
    ∧ (reset_if_stale default_counter (0 / 86400)).hits = 0 := by
  decide

/-- C8 amended: when the per-minute rule rejects, its counter is indeed
left uncommitted (only a window reset may be written back) and the daily
counter is untouched; but when the daily rule rejects, the daily counter's
increment has already been committed (the post-increment counter is
stored), with the earlier per-minute rule keeping its committed
increment. -/
theorem c8_amended (rl : RateLimitConfig) (rs : RateLimitState)
    (from_addr : String) (amount now_sec : Nat) (e : RelayError) (rs' : RateLimitState)
    (heq : enforce_rate_limits rl rs from_addr amount now_sec = (.error e, rs')) :
    e = .RateLimited ∧
    ((0 < rl.per_addr_per_min ∧
      rl.per_addr_per_min ≤ (per_min_view rs from_addr now_sec).hits ∧
      rs' = per_min_reject_state rs from_addr now_sec)
    ∨ (∃ cap, daily_cap_in_smallest_unit rl = some cap ∧
        ∃ rs1, rs1 = (if 0 < rl.per_addr_per_min then per_min_commit_state rs from_addr amount now_sec else rs) ∧
        cap < (increment_counter (daily_view rs1 from_addr now_sec) amount).amount ∧
        rs' = daily_commit_state rs1 from_addr amount now_sec)) := by
  have hmodel := enforce_rate_limits_eq_model rl rs from_addr amount now_sec
  rw [hmodel] at heq
  unfold rate_limiter_model at heq
  split at heq
  · rename_i hp
    unfold rate_limiter_daily_model at heq
    split at heq
    · exact absurd heq pair_ok_ne_error
    · rename_i cap hcap
      split at heq
      · rename_i hlt
        obtain ⟨he, hs⟩ := pair_error_inj heq
        exact ⟨he.symm, Or.inr ⟨cap, hcap, rs, by rw [if_neg (by omega)], hlt, hs.symm⟩⟩
      · exact absurd heq pair_ok_ne_error
  · rename_i hp
    split at heq
    · rename_i hle
      obtain ⟨he, hs⟩ := pair_error_inj heq
      exact ⟨he.symm, Or.inl ⟨Nat.pos_of_ne_zero hp, hle, hs.symm⟩⟩
    · rename_i hle
      unfold rate_limiter_daily_model at heq
      split at heq
      · exact absurd heq pair_ok_ne_error
      · rename_i cap hcap
        split at heq
        · rename_i hlt
          obtain ⟨he, hs⟩ := pair_error_inj heq
          exact ⟨he.symm,
            Or.inr ⟨cap, hcap, per_min_commit_state rs from_addr amount now_sec,
              by rw [if_pos (Nat.pos_of_ne_zero hp)], hlt, hs.symm⟩⟩
        · exact absurd heq pair_ok_ne_error

/-- Witness for C8 amended: a concrete daily-cap rejection satisfying the
theorem's hypothesis, with the rejected error obtained by applying the
theorem there. -/
theorem c8_amended_witness :
    enforce_rate_limits ⟨0, 1⟩ ⟨[], []⟩ "0xa" 2000000000000000000 0 =
      (.error .RateLimited, ⟨[], [("0xa", ⟨0, 2000000000000000000, 1⟩)]⟩)
    ∧ (.RateLimited : RelayError) = .RateLimited :=
  ⟨by decide,
   (c8_amended ⟨0, 1⟩ ⟨[], []⟩ "0xa" 2000000000000000000 0 .RateLimited
     ⟨[], [("0xa", ⟨0, 2000000000000000000, 1⟩)]⟩ (by decide)).1⟩

/-! ### C6 (corrected) -/

theorem mark_log_failure_append (logs : List PaymentLog) (entry : PaymentLog) (reason : String)
    (log_id : Nat) (hid : entry.id = log_id) (hids : ∀ l ∈ logs, l.id < log_id) :
    mark_log_failure (logs ++ [entry]) log_id reason =
      logs ++ [{ entry with status := .Failed, fail_reason := some reason }] := by
  induction logs with
  | nil => simp [mark_log_failure, hid]
  | cons l rest ih =>
    have hl : l.id ≠ log_id := by
      have := hids l (List.mem_cons_self l rest)
      omega
    simp only [List.cons_append, mark_log_failure, if_neg hl, List.append_eq]
    rw [ih (fun x hx => hids x (List.mem_cons_of_mem l hx))]

theorem mark_log_success_append (logs : List PaymentLog) (entry : PaymentLog) (tx_hash : String)
    (log_id : Nat) (hid : entry.id = log_id) (hids : ∀ l ∈ logs, l.id < log_id) :
    mark_log_success (logs ++ [entry]) log_id tx_hash =
      logs ++ [{ entry with status := .Broadcasted, tx_hash := some tx_hash, fail_reason := none }] := by
  induction logs with
  | nil => simp [mark_log_success, hid]
  | cons l rest ih =>
    have hl : l.id ≠ log_id := by
      have := hids l (List.mem_cons_self l rest)
      omega
    simp only [List.cons_append, mark_log_success, if_neg hl, List.append_eq]
    rw [ih (fun x hx => hids x (List.mem_cons_of_mem l hx))]

/-- The post-reservation pipeline never touches `next_log_id` and finalises
the reserved entry exactly once: on error it runs `mark_log_failure` with
either the stringified error or one of the three hard-coded reasons; on
success it runs `mark_log_success` with the transaction hash. -/
theorem pipeline_after_reserve_discipline (st : RelayerState) (log_id : Nat)
    (req : SubmitAuthorizationRequest) (env : CallEnvironment)
    (asset_cfg : AssetConfig) (cfg : RelayerConfig)
    (res : Except RelayError String) (st' : RelayerState)
    (heq : pipeline_after_reserve st log_id req env asset_cfg cfg = (res, st')) :
    st'.next_log_id = st.next_log_id ∧
    (match res with
     | .error e => ∃ r, st'.logs = mark_log_failure st.logs log_id r ∧
          (r = relay_error_to_string e ∨ r = "rpc target not configured" ∨
           r = "chain id not configured" ∨ r = "relayer gas below threshold")
     | .ok h => st'.logs = mark_log_success st.logs log_id h) := by
  unfold pipeline_after_reserve fail_with at heq
  simp only [] at heq
  repeat' split at heq
  all_goals injection heq with h1 h2
  all_goals subst h1
  all_goals subst h2
  all_goals first
    | exact ⟨rfl, _, rfl, Or.inr (Or.inl rfl)⟩
    | exact ⟨rfl, _, rfl, Or.inr (Or.inr (Or.inl rfl))⟩
    | exact ⟨rfl, _, rfl, Or.inr (Or.inr (Or.inr rfl))⟩
    | exact ⟨rfl, _, rfl, Or.inl rfl⟩
    | exact ⟨rfl, rfl⟩

/-- Counterexample to C6 as stated: a submission whose nonce is empty (not
32 bytes) against a fully configured, unpaused relayer *does* fail with
`InvalidNonceLength`, but only after a log entry has been reserved — the
log grows by one `Failed` entry and `next_log_id` advances from 1 to 2,
contradicting "returns that error before any log entry is reserved, i.e.
the logs vector and next_log_id are unchanged". -/
theorem c6_counterexample :
    (submit_authorization_internal example_state example_bad_nonce_request example_env).1 =
      .error (.InvalidNonceLength 32 0)
    ∧ (submit_authorization_internal example_state example_bad_nonce_request example_env).2.next_log_id = 2
    ∧ example_state.next_log_id = 1
    ∧ (submit_authorization_internal example_state example_bad_nonce_request example_env).2.logs.length = 1
    ∧ example_state.logs.length = 0 := by
  refine ⟨by decide, by decide, by decide, by decide, by decide⟩

/-- C6 amended: only the `from`/`to` address-length checks run before the
log reservation (returning their `InvalidAddressLength` error with the
state untouched); the nonce and `sig_r`/`sig_s` length checks happen after
reservation, during call-data encoding, so they mark the reserved entry
`Failed` like every other post-reservation error; and each post-reservation
error marks the entry with the stringified error except the
missing-rpc-target, missing-chain-id and gas-below-threshold paths, which
write fixed literal reasons. -/
theorem c6_amended (st : RelayerState) (req : SubmitAuthorizationRequest)
    (env : CallEnvironment) (res : Except RelayError String) (st' : RelayerState)
    (hids : ∀ l ∈ st.logs, l.id < st.next_log_id)
    (heq : submit_authorization_internal st req env = (res, st')) :
    (st.config.paused = false → req.from_bytes.length ≠ 20 →
       res = .error (.InvalidAddressLength "from" 20 req.from_bytes.length) ∧ st' = st)
    ∧ (st.config.paused = false → req.from_bytes.length = 20 → req.to_bytes.length ≠ 20 →
       res = .error (.InvalidAddressLength "to" 20 req.to_bytes.length) ∧ st' = st)
    ∧ log_discipline st st' res := by
  refine ⟨?_, ?_, ?_⟩
  · intro hp hf
    unfold submit_authorization_internal at heq
    rw [hp] at heq
    simp only [Bool.false_eq_true, if_false] at heq
    rw [if_pos hf] at heq
    injection heq with h1 h2
    exact ⟨h1.symm, h2.symm⟩
  · intro hp hf ht
    unfold submit_authorization_internal at heq
    rw [hp] at heq
    simp only [Bool.false_eq_true, if_false] at heq
    rw [if_neg (by simp [hf]), if_pos ht] at heq
    injection heq with h1 h2
    exact ⟨h1.symm, h2.symm⟩
  · unfold submit_authorization_internal at heq
    repeat' split at heq
    all_goals try (injection heq with h1 h2; subst h1; subst h2; exact Or.inl ⟨rfl, rfl⟩)
    unfold pipeline_from_rate_limit at heq
    simp only [] at heq
    split at heq
    · injection heq with h1 h2
      subst h1
      subst h2
      exact Or.inl ⟨rfl, rfl⟩
    · obtain ⟨hnext, hmatch⟩ := pipeline_after_reserve_discipline _ _ _ _ _ _ _ _ heq
      simp only [reserve_log_entry] at hnext hmatch
      cases res with
      | ok h =>
        unfold log_discipline
        simp only [] at hmatch
        rw [mark_log_success_append _ _ _ _ rfl hids] at hmatch
        exact ⟨hnext, _, hmatch, rfl, rfl, rfl⟩
      | error e =>
        unfold log_discipline
        obtain ⟨r, hlogs, hr⟩ := hmatch
        rw [mark_log_failure_append _ _ _ _ rfl hids] at hlogs
        refine Or.inr ⟨hnext, _, hlogs, rfl, rfl, ?_⟩
        rcases hr with h | h | h | h
        · exact Or.inl (by rw [h])
        · exact Or.inr (Or.inl (by rw [h]))
        · exact Or.inr (Or.inr (Or.inl (by rw [h])))
        · exact Or.inr (Or.inr (Or.inr (by rw [h])))

/-- Witness for C6 amended: the paused state satisfies the hypotheses, and
the call's log discipline follows by applying the theorem. -/
theorem c6_amended_witness :
    (∀ l ∈ (init_state none 0).logs, l.id < (init_state none 0).next_log_id) ∧
    log_discipline (init_state none 0) (init_state none 0) (.error .Paused) :=
  ⟨by decide,
   (c6_amended (init_state none 0) example_bad_nonce_request example_env
     (.error .Paused) (init_state none 0) (by decide) (by decide)).2.2⟩

/-! ### C9 -/

/-- C9: with the pipeline reachable up to the expiry check (not paused,
well-shaped addresses, registered non-disabled asset), any submission with
`valid_before ≤ now` fails with `AuthorizationExpired` and leaves the state
completely untouched — so the rate limiter is never entered, no log entry
is created, and no external call is issued; and the comparison is strict:
the same submission with `valid_before = now + 1` proceeds past the check
into the rate-limiting stage. -/
theorem c9_expiry_gate (st : RelayerState) (req : SubmitAuthorizationRequest)
    (env : CallEnvironment) (asset_cfg : AssetConfig)
    (hp : st.config.paused = false)
    (hf : req.from_bytes.length = 20)
    (ht : req.to_bytes.length = 20)
    (ha : assets_lookup st.assets req.asset = some asset_cfg)
    (hs : asset_cfg.status ≠ .Disabled)
    (hvb : req.valid_before ≤ env.now_sec)
    (hnow : env.now_sec + 1 < 2 ^ 64) :
    submit_authorization_internal st req env = (.error .AuthorizationExpired, st)
    ∧ submit_authorization_internal st { req with valid_before := env.now_sec + 1 } env =
        pipeline_from_rate_limit st { req with valid_before := env.now_sec + 1 } env asset_cfg
          st.config ("0x" ++ hex_encode req.from_bytes) ("0x" ++ hex_encode req.to_bytes)
          env.now_sec := by
  constructor
  · unfold submit_authorization_internal
    rw [hp]
    simp only [Bool.false_eq_true, if_false]
    rw [if_neg (by simp [hf]), if_neg (by simp [ht])]
    simp only [ha]
    rw [if_neg (by simpa using hs)]
    unfold nat_to_u64
    rw [if_pos (by omega)]
    simp only [hvb, if_true]
  · have hfh : to_hex_address req.from_bytes = .ok ("0x" ++ hex_encode req.from_bytes) := by
      unfold to_hex_address
      rw [if_neg (by simp [hf])]
    have hth : to_hex_address req.to_bytes = .ok ("0x" ++ hex_encode req.to_bytes) := by
      unfold to_hex_address
      rw [if_neg (by simp [ht])]
    have hgt : ¬ (env.now_sec + 1 ≤ env.now_sec) := by omega
    unfold submit_authorization_internal
    rw [hp]
    simp only [Bool.false_eq_true, if_false]
    rw [if_neg (by simp [hf]), if_neg (by simp [ht])]
    simp only [ha]
    rw [if_neg (by simpa using hs)]
    unfold nat_to_u64
    rw [if_pos (by simpa using hnow)]
    simp only [hgt, if_false, hfh, hth]

/-- Witness for C9 at a concrete state and a request expiring exactly at
the current second. -/
theorem c9_expiry_gate_witness :
    example_expired_request.valid_before ≤ example_env.now_sec ∧
    submit_authorization_internal example_state example_expired_request example_env =
      (.error .AuthorizationExpired, example_state) :=
  ⟨by decide,
   (c9_expiry_gate example_state example_expired_request example_env example_asset_cfg
     (by decide) (by decide) (by decide) (by decide) (by decide) (by decide) (by decide)).1⟩

end JpycRelayer
